import Mathlib

/-!
# WebSocket session: `src/net/websocket/ws_session.cpp`

A shallow embedding of `websocket_session`.  Byte buffers (`uint8_t*` with a
length, `std::string`, `data_buffer`) are lists of byte values; the session is a
record of its member variables, and every call it makes on a collaborator (the
transport `session_ptr_`, the application callback `cb_`, the owning `server_`)
is appended, in program order, to the `trace` field.  Logging is not modelled.
-/

namespace WsSession

set_option maxRecDepth 100000

/-! ## Bytes and strings -/

/-- A byte buffer: the bytes of a `std::string`, or of a `uint8_t*` with its length. -/
abbrev Bytes := List Nat

/-- The bytes of a string literal of the source. -/
def str (s : String) : Bytes := s.toList.map Char.toNat

/-- The value `std::string::npos` (64-bit `size_t`). -/
def npos : Nat := 2 ^ 64 - 1

/-- The call `s.find(pat)` of `std::string`: the offset of the first occurrence of
`pat` in `s`, or `none` for `npos`. -/
def find : Bytes → Bytes → Option Nat
  | [], pat => if pat.isPrefixOf [] then some 0 else none
  | c :: cs, pat =>
    if pat.isPrefixOf (c :: cs) then some 0
    else (find cs pat).map (· + 1)

/-- The C library function `tolower` on one byte (C locale). -/
def tolower (c : Nat) : Nat := if 65 ≤ c ∧ c ≤ 90 then c + 32 else c

/-- Modelled from the spec: `string2lower` (declared in `utils/stringex.hpp`, not
under `src/`): folds every byte of the string to lower case. -/
def string2lower (data : Bytes) : Bytes := data.map tolower

/-- Modelled from the spec: the loop of `string_split` (see below), bounded by `fuel`
iterations; the length of the input is always enough when the separator is not empty. -/
def string_split_loop (split_str : Bytes) : Nat → Bytes → List Bytes
  | 0, _ => []
  | fuel + 1, tempString =>
    match find tempString split_str with
    | none => [tempString]
    | some pos =>
      let seg_str := tempString.take pos
      let tempString := tempString.drop (pos + split_str.length)
      if tempString.length > 0 then seg_str :: string_split_loop split_str fuel tempString
      else [seg_str]

/-- Modelled from the spec: `string_split` (declared in `utils/stringex.hpp`, not
under `src/`): the pieces of `input_str` between successive occurrences of the
separator `split_str`, in order; an empty input gives no piece, and a separator that
ends the input is not followed by an empty piece.  The value the function returns is
the number of pieces. -/
def string_split (input_str split_str : Bytes) : List Bytes :=
  if input_str.length = 0 then []
  else string_split_loop split_str input_str.length input_str

/-- The C library function `isspace` on one byte (C locale). -/
def isspace (c : Nat) : Bool := c = 32 ∨ (9 ≤ c ∧ c ≤ 13)

/-- The C library function `isdigit` on one byte. -/
def isdigit (c : Nat) : Bool := 48 ≤ c ∧ c ≤ 57

/-- The C library function `atoi`: leading white space, an optional sign, then the
decimal digits up to the first other byte.  A value outside the range of `int` is
undefined behaviour in C and is left as the mathematical value here. -/
def atoi (s : Bytes) : Int :=
  let s := s.dropWhile isspace
  let sign_rest : Bool × Bytes :=
    match s with
    | 45 :: t => (true, t)
    | 43 :: t => (false, t)
    | _ => (false, s)
  let n : Nat := (sign_rest.2.takeWhile isdigit).foldl (fun a c => a * 10 + (c - 48)) 0
  if sign_rest.1 then - (n : Int) else (n : Int)

/-- The header map `headers_` (a `std::map` from string to string): lookup of a key,
`none` standing for `end()`. -/
def headers_find : List (Bytes × Bytes) → Bytes → Option Bytes
  | [], _ => none
  | (k, v) :: t, key => if k = key then some v else headers_find t key

/-- The header map `headers_`: the assignment `headers_[key] = value`, which
overwrites the value of a key that is present and inserts the key otherwise. -/
def headers_set : List (Bytes × Bytes) → Bytes → Bytes → List (Bytes × Bytes)
  | [], key, value => [(key, value)]
  | (k, v) :: t, key, value =>
    if k = key then (k, value) :: t else (k, v) :: headers_set t key value

/-- Calls made on the collaborators of the session, in program order. -/
inductive Effect
  | async_write (data : Bytes)
  | async_read
  | close
  | on_close
  | on_read (data : Bytes)
  | session_close
  deriving DecidableEq, Repr

/-- Modelled from the spec: the opcodes of the frame header (the `WS_OP_*_TYPE`
constants are declared in `ws_format.hpp`, which is not under `src/`). -/
def WS_OP_CONTINUE_TYPE : Nat := 0x0

/-- Modelled from the spec: opcode of a text frame. -/
def WS_OP_TEXT_TYPE : Nat := 0x1

/-- Modelled from the spec: opcode of a binary frame. -/
def WS_OP_BIN_TYPE : Nat := 0x2

/-- Modelled from the spec: opcode of a close frame. -/
def WS_OP_CLOSE_TYPE : Nat := 0x8

/-- Modelled from the spec: opcode of a ping frame. -/
def WS_OP_PING_TYPE : Nat := 0x9

/-- Modelled from the spec: opcode of a pong frame. -/
def WS_OP_PONG_TYPE : Nat := 0xA

/-- Modelled from the spec: the return codes of the handshake functions (`WS_RET_OK`
and `WS_RET_READ_MORE` are declared in `ws_session.hpp`, which is not under `src/`);
only the fact that the two differ is used. -/
def WS_RET_OK : Int := 0

/-- Modelled from the spec: the need-more-data return code. -/
def WS_RET_READ_MORE : Int := 1

/-- The constant `UINT16_MAX`. -/
def UINT16_MAX : Nat := 65535

/-! ## The frame decoder `frame_` -/

/-- Modelled from the spec: the state of the streaming frame decoder (the class
`websocket_frame` is declared in `ws_format.hpp`, not under `src/`): the bytes fed
and not yet consumed, and the fields of the header of the frame in progress. -/
structure websocket_frame where
  buffer_ : Bytes
  header_ready_ : Bool
  fin_ : Bool
  opcode_ : Nat
  mask_enable_ : Bool
  masking_key_ : Bytes
  payload_len_ : Nat
  payload_start_ : Nat
  deriving DecidableEq, Repr

/-- The value of a big-endian byte string. -/
def be_value (bytes : Bytes) : Nat := bytes.foldl (fun a b => a * 256 + b) 0

/-- Modelled from the spec: `websocket_frame::parse(data, len)`, a feed of the decoder;
`data = []` is the feed `parse(nullptr, 0)` that resumes from the buffered bytes.  Parse
order: the 2-byte base header (fin, three reserved bits that must be zero, 4-bit
opcode; mask bit, 7-bit length), then a 16-bit big-endian length when the length field
is 126 or a 64-bit one when it is 127, then the 4-byte masking key when the mask bit is
set.  A reserved bit that is set, or an unknown opcode, makes the call fail (non-zero
result) and the buffered bytes are discarded; a header that is not complete yet leaves
the decoder waiting for more bytes. -/
def websocket_frame.parse (f : websocket_frame) (data : Bytes) : websocket_frame × Int :=
  let f := { f with buffer_ := f.buffer_ ++ data }
  if f.header_ready_ then (f, 0)
  else if f.buffer_.length < 2 then (f, 0)
  else
    let b0 := f.buffer_.getD 0 0
    let b1 := f.buffer_.getD 1 0
    let opcode := b0 % 16
    let len7 := b1 % 128
    let mask := b1 / 128 % 2
    if b0 / 16 % 8 ≠ 0 then ({ f with buffer_ := [] }, -1)
    else if ¬ (opcode = 0x0 ∨ opcode = 0x1 ∨ opcode = 0x2 ∨ opcode = 0x8 ∨ opcode = 0x9
        ∨ opcode = 0xA) then ({ f with buffer_ := [] }, -1)
    else
      let ext := if len7 = 126 then 2 else if len7 = 127 then 8 else 0
      let start := 2 + ext + (if mask = 1 then 4 else 0)
      if f.buffer_.length < start then (f, 0)
      else
        ({ f with header_ready_ := true, fin_ := decide (b0 / 128 % 2 = 1), opcode_ := opcode,
                  mask_enable_ := decide (mask = 1),
                  masking_key_ := if mask = 1 then (f.buffer_.drop (2 + ext)).take 4 else [],
                  payload_len_ := if ext = 0 then len7
                                  else be_value ((f.buffer_.drop 2).take ext),
                  payload_start_ := start }, 0)

/-- Modelled from the spec: `websocket_frame::payload_is_ready()`: true only once the
whole payload of the declared length has been received. -/
def websocket_frame.payload_is_ready (f : websocket_frame) : Bool :=
  f.header_ready_ && decide (f.payload_start_ + f.payload_len_ ≤ f.buffer_.length)

/-- Modelled from the spec: `websocket_frame::get_payload_len()`. -/
def websocket_frame.get_payload_len (f : websocket_frame) : Nat := f.payload_len_

/-- Modelled from the spec: `websocket_frame::get_payload_start()`, the offset of the
payload in the buffered bytes. -/
def websocket_frame.get_payload_start (f : websocket_frame) : Nat := f.payload_start_

/-- Unmasking: byte number `i`, `i + 1`, ... of the payload XOR `key[i mod 4]`. -/
def unmask (key : Bytes) : Nat → Bytes → Bytes
  | _, [] => []
  | i, b :: bs => (b ^^^ key.getD (i % 4) 0) :: unmask key (i + 1) bs

/-- Modelled from the spec: `websocket_frame::get_payload_data()`: the payload bytes,
unmasked with the masking key when the frame is masked. -/
def websocket_frame.get_payload_data (f : websocket_frame) : Bytes :=
  let raw := (f.buffer_.drop f.payload_start_).take f.payload_len_
  if f.mask_enable_ then unmask f.masking_key_ 0 raw else raw

/-- Modelled from the spec: `websocket_frame::consume(n)`: advances past `n` buffered
bytes. -/
def websocket_frame.consume (f : websocket_frame) (n : Nat) : websocket_frame :=
  { f with buffer_ := f.buffer_.drop n }

/-- Modelled from the spec: `websocket_frame::reset()`: clears the progress of the
frame that was parsed, but not the unconsumed trailing bytes.  The fin flag and the
opcode of that frame stay readable: `on_handle_frame` reads them after `reset()`. -/
def websocket_frame.reset (f : websocket_frame) : websocket_frame :=
  { f with header_ready_ := false, mask_enable_ := false, masking_key_ := [],
           payload_len_ := 0, payload_start_ := 0 }

/-- Modelled from the spec: `websocket_frame::get_fin()`. -/
def websocket_frame.get_fin (f : websocket_frame) : Bool := f.fin_

/-- Modelled from the spec: `websocket_frame::get_oper_code()`. -/
def websocket_frame.get_oper_code (f : websocket_frame) : Nat := f.opcode_

/-- Modelled from the spec: `websocket_frame::get_buffer_len()`, the number of buffered
bytes that remain. -/
def websocket_frame.get_buffer_len (f : websocket_frame) : Nat := f.buffer_.length

/-! ## The session record -/

/-- The member variables of `websocket_session` that the code under `src/` reads or
writes.  `server_` records whether the pointer is non-null; `cb_` is dereferenced
without a test by `handle_ws_close` and the destructor and is taken to be non-null.
`trace` is the log of collaborator calls. -/
structure Session where
  server_ : Bool
  close_ : Bool
  uuid_ : Bytes
  http_request_ready_ : Bool
  http_recv_buffer_ : Bytes
  method_ : Bytes
  path_ : Bytes
  headers_ : List (Bytes × Bytes)
  sec_ws_ver_ : Int
  sec_ws_key_ : Bytes
  sec_ws_protocol_ : Bytes
  hash_code_ : Bytes
  frame_ : websocket_frame
  recv_buffer_vec_ : List Bytes
  die_count_ : Int
  uri_ : Bytes
  trace : List Effect
  deriving DecidableEq, Repr

/-- The call `session_ptr_->async_write(data, len)`. -/
def async_write (s : Session) (data : Bytes) : Session :=
  { s with trace := s.trace ++ [Effect.async_write data] }

/-- The call `session_ptr_->async_read()`. -/
def async_read (s : Session) : Session :=
  { s with trace := s.trace ++ [Effect.async_read] }

/-! ## Frame encoder -/

/-- Modelled from the spec: the layout of `WS_PACKET_HEADER` (declared in
`ws_format.hpp`, not under `src/`): byte 0 holds `fin` in its top bit, the three
reserved bits below it and the 4-bit `opcode` in its low nibble; byte 1 holds `mask`
in its top bit and the 7-bit `payload_len` below.  Storing into the bit-field `fin`
of byte 0. -/
def set_fin (byte0 v : Nat) : Nat := byte0 % 128 + (v % 2) * 128

/-- Modelled from the spec: storing into the 4-bit field `opcode` of byte 0. -/
def set_opcode (byte0 v : Nat) : Nat := (byte0 / 16) * 16 + v % 16

/-- Modelled from the spec: storing into the 7-bit field `payload_len` of byte 1. -/
def set_payload_len (byte1 v : Nat) : Nat := (byte1 / 128) * 128 + v % 128

/-- Modelled from the spec: storing into the bit-field `mask` of byte 1. -/
def set_mask (byte1 v : Nat) : Nat := byte1 % 128 + (v % 2) * 128

/-- Apply `f` to the byte at offset `i` of a buffer. -/
def modify_at (f : Nat → Nat) : Nat → Bytes → Bytes
  | _, [] => []
  | 0, b :: bs => f b :: bs
  | i + 1, b :: bs => b :: modify_at f i bs

/-- The method `websocket_session::send_ws_frame(data, len, op_code)`; `data` is the
buffer of `len = data.length` bytes. -/
def send_ws_frame (s : Session) (data : Bytes) (op_code : Nat) : Session :=
  let MAX_HEADER_LEN := 10
  let len := data.length
  let s := { s with die_count_ := 0 }
  let header_start : Bytes := List.replicate MAX_HEADER_LEN 0
  let header_start := modify_at (fun b => set_fin b 1) 0 header_start
  let header_start := modify_at (fun b => set_opcode b op_code) 0 header_start
  let (header_start, header_len) :=
    if len ≥ 126 then
      if len > UINT16_MAX then
        let h := modify_at (fun b => set_payload_len b 127) 1 header_start
        let h := h.set 2 ((len >>> 56) &&& 0xFF)
        let h := h.set 3 ((len >>> 48) &&& 0xFF)
        let h := h.set 4 ((len >>> 40) &&& 0xFF)
        let h := h.set 5 ((len >>> 32) &&& 0xFF)
        let h := h.set 6 ((len >>> 24) &&& 0xFF)
        let h := h.set 7 ((len >>> 16) &&& 0xFF)
        let h := h.set 8 ((len >>> 8) &&& 0xFF)
        let h := h.set 9 ((len >>> 0) &&& 0xFF)
        (h, MAX_HEADER_LEN)
      else
        let h := modify_at (fun b => set_payload_len b 126) 1 header_start
        let h := h.set 2 ((len >>> 8) &&& 0xFF)
        let h := h.set 3 ((len >>> 0) &&& 0xFF)
        (h, 4)
    else
      (modify_at (fun b => set_payload_len b len) 1 header_start, 2)
  let header_start := modify_at (fun b => set_mask b 0) 1 header_start
  let s := async_write s (header_start.take header_len)
  async_write s data

/-- The method `websocket_session::send_close(code, reason, reason_len)`; callers
that leave out `reason_len` pass its default `0`.  `reason` is a C string, so
`strlen(reason)` is its length. -/
def send_close (s : Session) (code : Nat) (reason : Bytes) (reason_len : Nat) : Session :=
  let _ := code
  let reason_len := if reason_len = 0 then reason.length else reason_len
  send_ws_frame s (reason.take reason_len) WS_OP_CLOSE_TYPE

/-- The local `invalid` of `handle_ws_close`, computed from the 16-bit `code`: the
range test followed by the `switch`. -/
def close_code_invalid (code : Nat) : Bool :=
  let invalid := false
  let invalid := if code < 1000 ∨ code ≥ 5000 then true else invalid
  if code = 1004 ∨ code = 1005 ∨ code = 1006 ∨ code = 1015 then true else invalid

/-- The method `websocket_session::handle_ws_close(data, len)`; `data` is the buffer of
`len = data.length` bytes. -/
def handle_ws_close (s : Session) (data : Bytes) : Session :=
  if s.close_ then s
  else
    let len := data.length
    let s :=
      if len ≤ 1 then
        send_close s 1002 (str "Incomplete close code") 0
      else
        let code := (((data.getD 0 0 % 256) <<< 8) ||| (data.getD 1 0 % 256)) % 65536
        if close_code_invalid code then
          send_close s 1002 (str "Invalid close code") 0
        else
          send_ws_frame s data WS_OP_CLOSE_TYPE
    let s := { s with close_ := true }
    let s := { s with trace := s.trace ++ [Effect.on_close] }
    { s with trace := s.trace ++ [Effect.close] }

/-- Modelled from the spec: the members that the constructor body does not assign
(their in-class initialisers are in `ws_session.hpp`, not under `src/`): a session
starts awaiting the handshake, with empty buffers and an empty header map. -/
def default_members : Session :=
  { server_ := false, close_ := false, uuid_ := [], http_request_ready_ := false,
    http_recv_buffer_ := [], method_ := [], path_ := [], headers_ := [],
    sec_ws_ver_ := 0, sec_ws_key_ := [], sec_ws_protocol_ := [], hash_code_ := [],
    frame_ := { buffer_ := [], header_ready_ := false, fin_ := false, opcode_ := 0,
                mask_enable_ := false, masking_key_ := [], payload_len_ := 0,
                payload_start_ := 0 },
    recv_buffer_vec_ := [], die_count_ := 0, uri_ := [], trace := [] }

/-- The constructor `websocket_session::websocket_session`; `server` tells whether
the server pointer is non-null and `uuid` is the value returned by `make_uuid()`. -/
def websocket_session (server : Bool) (uuid : Bytes) : Session :=
  let s := { default_members with server_ := server }
  let s := { s with close_ := false }
  let s := { s with uuid_ := uuid }
  async_read s

/-- The destructor `websocket_session::~websocket_session`. -/
def websocket_session_destructor (s : Session) : Session :=
  if !s.close_ then
    let s := { s with trace := s.trace ++ [Effect.on_close] }
    { s with trace := s.trace ++ [Effect.close] }
  else s

/-! ## Handshake -/

/-- Rotation of a 32-bit word to the left by `n` bits. -/
def rotl32 (n x : Nat) : Nat := ((x <<< n) ||| (x >>> (32 - n))) % 2 ^ 32

/-- The four bytes of a 32-bit word, most significant first. -/
def be32 (x : Nat) : Bytes :=
  [(x >>> 24) &&& 0xFF, (x >>> 16) &&& 0xFF, (x >>> 8) &&& 0xFF, x &&& 0xFF]

/-- The SHA-1 padding of a message: the byte `0x80`, zero bytes up to 56 modulo 64,
and the bit length as 8 big-endian bytes. -/
def sha1_pad (msg : Bytes) : Bytes :=
  let l := msg.length * 8
  msg ++ [0x80] ++ List.replicate ((119 - msg.length % 64) % 64) 0
    ++ be32 (l >>> 32) ++ be32 l

/-- The big-endian 32-bit words of a byte string whose length is a multiple of 4. -/
def be_words : Bytes → List Nat
  | a :: b :: c :: d :: rest => ((a <<< 24) ||| (b <<< 16) ||| (c <<< 8) ||| d) :: be_words rest
  | _ => []

/-- The SHA-1 message schedule: `n` more words appended to the words so far. -/
def sha1_extend : Nat → List Nat → List Nat
  | 0, w => w
  | n + 1, w =>
    let t := w.length
    sha1_extend n (w ++ [rotl32 1 (w.getD (t - 3) 0 ^^^ w.getD (t - 8) 0
      ^^^ w.getD (t - 14) 0 ^^^ w.getD (t - 16) 0)])

/-- One round of the SHA-1 compression function, on the working variables
`(a, b, c, d, e)`, for round number `t` and schedule word `wt`. -/
def sha1_round (st : Nat × Nat × Nat × Nat × Nat) (t wt : Nat) :
    Nat × Nat × Nat × Nat × Nat :=
  let (a, b, c, d, e) := st
  let fk : Nat × Nat :=
    if t < 20 then ((b &&& c) ||| ((b ^^^ 0xFFFFFFFF) &&& d), 0x5A827999)
    else if t < 40 then (b ^^^ c ^^^ d, 0x6ED9EBA1)
    else if t < 60 then ((b &&& c) ||| (b &&& d) ||| (c &&& d), 0x8F1BBCDC)
    else (b ^^^ c ^^^ d, 0xCA62C1D6)
  ((rotl32 5 a + fk.1 + e + fk.2 + wt) % 2 ^ 32, a, rotl32 30 b, c, d)

/-- The 80 rounds of SHA-1 over the schedule words `ws`, starting at round `t`. -/
def sha1_rounds : Nat × Nat × Nat × Nat × Nat → Nat → List Nat →
    Nat × Nat × Nat × Nat × Nat
  | st, _, [] => st
  | st, t, wt :: ws => sha1_rounds (sha1_round st t wt) (t + 1) ws

/-- The SHA-1 compression of one 64-byte block into the chaining value `h`. -/
def sha1_block (h : Nat × Nat × Nat × Nat × Nat) (block : Bytes) :
    Nat × Nat × Nat × Nat × Nat :=
  let r := sha1_rounds h 0 (sha1_extend 64 (be_words block))
  ((h.1 + r.1) % 2 ^ 32, (h.2.1 + r.2.1) % 2 ^ 32, (h.2.2.1 + r.2.2.1) % 2 ^ 32,
   (h.2.2.2.1 + r.2.2.2.1) % 2 ^ 32, (h.2.2.2.2 + r.2.2.2.2) % 2 ^ 32)

/-- The SHA-1 compression of `n` successive 64-byte blocks. -/
def sha1_blocks : Nat → Nat × Nat × Nat × Nat × Nat → Bytes → Nat × Nat × Nat × Nat × Nat
  | 0, h, _ => h
  | n + 1, h, bytes => sha1_blocks n (sha1_block h (bytes.take 64)) (bytes.drop 64)

/-- Modelled from the spec: the SHA-1 digest primitive (the calls `SHA1_Init`,
`SHA1_Update`, `SHA1_Final` of OpenSSL, an external collaborator): the 20-byte digest
of a byte string, as FIPS 180 defines it. -/
def SHA1 (msg : Bytes) : Bytes :=
  let padded := sha1_pad msg
  let h := sha1_blocks (padded.length / 64)
    (0x67452301, 0xEFCDAB89, 0x98BADCFE, 0x10325476, 0xC3D2E1F0) padded
  be32 h.1 ++ be32 h.2.1 ++ be32 h.2.2.1 ++ be32 h.2.2.2.1 ++ be32 h.2.2.2.2

/-- The Base64 alphabet. -/
def base64_chars : Bytes :=
  str "ABCDEFGHIJKLMNOPQRSTUVWXYZabcdefghijklmnopqrstuvwxyz0123456789+/"

/-- Modelled from the spec: the Base64 encoder `base64_encode` (declared in
`utils/base64.h`, not under `src/`): the standard encoding with `=` padding. -/
def base64_encode : Bytes → Bytes
  | [] => []
  | [a] =>
    [base64_chars.getD (a >>> 2) 0, base64_chars.getD ((a &&& 3) <<< 4) 0, 61, 61]
  | [a, b] =>
    [base64_chars.getD (a >>> 2) 0, base64_chars.getD (((a &&& 3) <<< 4) ||| (b >>> 4)) 0,
     base64_chars.getD ((b &&& 15) <<< 2) 0, 61]
  | a :: b :: c :: rest =>
    [base64_chars.getD (a >>> 2) 0, base64_chars.getD (((a &&& 3) <<< 4) ||| (b >>> 4)) 0,
     base64_chars.getD (((b &&& 15) <<< 2) ||| (c >>> 6)) 0, base64_chars.getD (c &&& 63) 0]
      ++ base64_encode rest

/-- The method `websocket_session::gen_hashcode`. -/
def gen_hashcode (s : Session) : Session :=
  let sec_key := s.sec_ws_key_
  let sec_key := sec_key ++ str "258EAFA5-E914-47DA-95CA-C5AB0DC85B11"
  let hash := SHA1 sec_key
  { s with hash_code_ := base64_encode (hash.take 20) }

/-- The method `websocket_session::send_error_response`. -/
def send_error_response (s : Session) : Session :=
  let resp_msg := str "HTTP/1.1 400 Bad Request\r\n\r\n"
  async_write s resp_msg

/-- The method `websocket_session::send_http_response`; the second component is the
value it returns. -/
def send_http_response (s : Session) : Session × Int :=
  let ss : Bytes := []
  let s := gen_hashcode s
  let ss := ss ++ str "HTTP/1.1 101 Switching Protocols" ++ str "\r\n"
  let ss := ss ++ str "Upgrade: websocket" ++ str "\r\n"
  let ss := ss ++ str "Connection: Upgrade" ++ str "\r\n"
  let ss := ss ++ str "Sec-WebSocket-Accept: " ++ s.hash_code_ ++ str "\r\n"
  let ss := ss ++ str "\r\n"
  let s := async_write s ss
  (s, WS_RET_OK)

/-- The body of the header loop of `on_handle_http_request` for one line: `none` when
the line has no space (`continue`), else the lower-cased key and the value.  The
subtraction `pos - 1` is on `size_t`, so it gives `npos` when `pos` is 0. -/
def split_header_line (line : Bytes) : Option (Bytes × Bytes) :=
  match find line (str " ") with
  | none => none
  | some pos =>
    let key := line.take (if pos = 0 then npos else pos - 1)
    let value := line.drop (pos + 1)
    let key := string2lower key
    some (key, value)

/-- One iteration of the header loop of `on_handle_http_request`, on the map. -/
def parse_header_line (headers : List (Bytes × Bytes)) (line : Bytes) :
    List (Bytes × Bytes) :=
  match split_header_line line with
  | none => headers
  | some (key, value) => headers_set headers key value

/-- The method `websocket_session::on_handle_http_request`.  The second component is
the returned code, or the message of the `MediaServerError` that is thrown; the first
is the session as the call leaves it, also when it throws. -/
def on_handle_http_request (s : Session) : Session × Except String Int :=
  let content := s.http_recv_buffer_
  match find content (str "\r\n\r\n") with
  | none => (s, .ok WS_RET_READ_MORE)
  | some pos =>
    let s := { s with http_request_ready_ := true }
    let content := content.take pos
    let lines := string_split content (str "\r\n")
    let ret : Int := lines.length
    if ret ≤ 0 ∨ lines.isEmpty then (s, .error "websocket http header error")
    else
      let http_items := string_split (lines.getD 0 []) (str " ")
      if http_items.length ≠ 3 then (s, .error "websocket http header error")
      else
        let s := { s with method_ := http_items.getD 0 [] }
        let s := { s with path_ := http_items.getD 1 [] }
        let s := { s with method_ := string2lower s.method_ }
        let s := { s with headers_ := (lines.drop 1).foldl parse_header_line s.headers_ }
        match headers_find s.headers_ (str "connection") with
        | none => (s, .error "websocket http header error: Connection not exist")
        | some connection =>
          let connection := string2lower connection
          let s := { s with headers_ := headers_set s.headers_ (str "connection") connection }
          if connection ≠ str "upgrade" then
            (s, .error "websocket http header error: Connection is not upgrade")
          else
            match headers_find s.headers_ (str "upgrade") with
            | none => (s, .error "websocket http header error: Upgrade not exist")
            | some upgrade =>
              let upgrade := string2lower upgrade
              let s := { s with headers_ := headers_set s.headers_ (str "upgrade") upgrade }
              if upgrade ≠ str "websocket" then
                (s, .error "websocket http header error: upgrade is not websocket")
              else
                let s :=
                  match headers_find s.headers_ (str "sec-websocket-version") with
                  | some ver => { s with sec_ws_ver_ := atoi ver }
                  | none => { s with sec_ws_ver_ := 13 }
                match headers_find s.headers_ (str "sec-websocket-key") with
                | none =>
                  (s, .error "websocket http header error: Sec-WebSocket-Key not exist")
                | some key =>
                  let s := { s with sec_ws_key_ := key }
                  let s :=
                    match headers_find s.headers_ (str "sec-webSocket-protocol") with
                    | some protocol => { s with sec_ws_protocol_ := protocol }
                    | none => s
                  (s, .ok WS_RET_OK)

/-! ## Frame dispatch and the read callback -/

/-- The method `websocket_session::handle_ws_ping`. -/
def handle_ws_ping (s : Session) : Session :=
  s.recv_buffer_vec_.foldl (fun s item => send_ws_frame s item WS_OP_PONG_TYPE) s

/-- The method `websocket_session::handle_ws_text(data, len)`. -/
def handle_ws_text (s : Session) (data : Bytes) : Session :=
  { s with trace := s.trace ++ [Effect.on_read data] }

/-- The method `websocket_session::handle_ws_bin(data, len)`. -/
def handle_ws_bin (s : Session) (data : Bytes) : Session :=
  { s with trace := s.trace ++ [Effect.on_read data] }

/-- The dispatch on the opcode in the body of the loop of `on_handle_frame`, reached
for a frame whose fin flag is set. -/
def on_handle_frame_dispatch (s : Session) : Session :=
  if s.frame_.get_oper_code = WS_OP_PING_TYPE then handle_ws_ping s
  else if s.frame_.get_oper_code = WS_OP_PONG_TYPE then s
  else if s.frame_.get_oper_code = WS_OP_CLOSE_TYPE then
    s.recv_buffer_vec_.foldl handle_ws_close s
  else if s.frame_.get_oper_code = WS_OP_CONTINUE_TYPE then
    s.recv_buffer_vec_.foldl handle_ws_bin s
  else if s.frame_.get_oper_code = WS_OP_TEXT_TYPE then
    s.recv_buffer_vec_.foldl handle_ws_text s
  else if s.frame_.get_oper_code = WS_OP_BIN_TYPE then
    s.recv_buffer_vec_.foldl handle_ws_bin s
  else s

/-- One pass through the body of the `do ... while` loop of `on_handle_frame`; `i` is
the loop counter of the source.  The second component tells whether the loop goes on
(the body ran to its end, or to `continue`, and `frame_.get_buffer_len() > 0`) or the
function returns. -/
def on_handle_frame_body (s : Session) (data : Bytes) (i : Nat) : Session × Bool :=
  let r := if i = 0 then s.frame_.parse data else s.frame_.parse []
  let s := { s with frame_ := r.1 }
  if r.2 ≠ 0 then (s, false)
  else if !s.frame_.payload_is_ready then (s, false)
  else
    let buffer_ptr := s.frame_.get_payload_data.take s.frame_.get_payload_len
    let s := { s with recv_buffer_vec_ := s.recv_buffer_vec_ ++ [buffer_ptr] }
    let n := s.frame_.get_payload_start + s.frame_.get_payload_len
    let s := { s with frame_ := (s.frame_.consume n).reset }
    if !s.frame_.get_fin then (s, decide (s.frame_.get_buffer_len > 0))
    else
      let s := { s with die_count_ := 0 }
      let s := on_handle_frame_dispatch s
      let s := { s with recv_buffer_vec_ := [] }
      (s, decide (s.frame_.get_buffer_len > 0))

/-- The `do ... while` loop of `on_handle_frame`, bounded by `fuel` iterations. -/
def on_handle_frame_loop : Nat → Session → Bytes → Nat → Session
  | 0, s, _, _ => s
  | fuel + 1, s, data, i =>
    let r := on_handle_frame_body s data i
    if r.2 then on_handle_frame_loop fuel r.1 data (i + 1) else r.1

/-- The method `websocket_session::on_handle_frame(data, len)`.  Every iteration that
loops again has consumed at least the two bytes of a base header, so the number of
buffered bytes bounds the number of iterations. -/
def on_handle_frame (s : Session) (data : Bytes) : Session :=
  on_handle_frame_loop (s.frame_.buffer_.length + data.length + 1) s data 0

/-- The call `server_->session_close(this)`. -/
def session_close (s : Session) : Session :=
  { s with trace := s.trace ++ [Effect.session_close] }

/-- The method `websocket_session::on_read(ret_code, data, data_size)`. -/
def on_read (s : Session) (ret_code : Int) (data : Bytes) : Session :=
  if ret_code ≠ 0 then s
  else if !s.http_request_ready_ then
    let s := { s with http_recv_buffer_ := s.http_recv_buffer_ ++ data }
    match on_handle_http_request s with
    | (s, .ok ret) =>
      if ret = WS_RET_READ_MORE then async_read s
      else if ret = WS_RET_OK then
        let r := send_http_response s
        let s := r.1
        if r.2 ≠ WS_RET_OK then
          if s.server_ then session_close s else s
        else
          let s := { s with http_recv_buffer_ := [] }
          async_read s
      else
        let s := send_error_response s
        if s.server_ then session_close s else s
    | (s, .error _) =>
      let s := send_error_response s
      if s.server_ then session_close s else s
  else
    let s := on_handle_frame s data
    async_read s

/-! ## Sample requests -/

/-- A minimal valid upgrade request: the request line and the three required headers. -/
def minimal_request : Session :=
  { websocket_session true [] with
    http_recv_buffer_ := str ("GET /chat HTTP/1.1\r\nConnection: Upgrade\r\n"
      ++ "Upgrade: websocket\r\nSec-WebSocket-Key: dGhlIHNhbXBsZSBub25jZQ==\r\n\r\n") }

/-- The minimal request without its `Connection` header. -/
def request_without_connection : Session :=
  { websocket_session true [] with
    http_recv_buffer_ := str ("GET /chat HTTP/1.1\r\n"
      ++ "Upgrade: websocket\r\nSec-WebSocket-Key: dGhlIHNhbXBsZSBub25jZQ==\r\n\r\n") }

/-- The minimal request without its `Upgrade` header. -/
def request_without_upgrade : Session :=
  { websocket_session true [] with
    http_recv_buffer_ := str ("GET /chat HTTP/1.1\r\nConnection: Upgrade\r\n"
      ++ "Sec-WebSocket-Key: dGhlIHNhbXBsZSBub25jZQ==\r\n\r\n") }

/-- The minimal request without its `Sec-WebSocket-Key` header. -/
def request_without_key : Session :=
  { websocket_session true [] with
    http_recv_buffer_ := str ("GET /chat HTTP/1.1\r\nConnection: Upgrade\r\n"
      ++ "Upgrade: websocket\r\n\r\n") }

/-- The key and value of a header line as the specification words them: the key is
everything before the colon, folded to lower case; the value is everything after the
first space that follows the colon. -/
def spec_split_header_line (line : Bytes) : Bytes × Bytes :=
  let key := line.takeWhile (fun c => c ≠ 58)
  let after_colon := (line.dropWhile (fun c => c ≠ 58)).drop 1
  let value := (after_colon.dropWhile (fun c => c ≠ 32)).drop 1
  (string2lower key, value)

/-- The minimal request followed by a `User-Agent` header that has no space after
its colon. -/
def request_with_user_agent : Session :=
  { websocket_session true [] with
    http_recv_buffer_ := str ("GET /chat HTTP/1.1\r\nConnection: Upgrade\r\n"
      ++ "Upgrade: websocket\r\nSec-WebSocket-Key: dGhlIHNhbXBsZSBub25jZQ==\r\n"
      ++ "User-Agent:Mozilla/5.0 (X11)\r\n\r\n") }

/-- A valid upgrade request that asks for the sub-protocol `chat`. -/
def request_with_protocol : Session :=
  { websocket_session true [] with
    http_recv_buffer_ := str ("GET /chat HTTP/1.1\r\nConnection: Upgrade\r\n"
      ++ "Upgrade: websocket\r\nSec-WebSocket-Key: dGhlIHNhbXBsZSBub25jZQ==\r\n"
      ++ "Sec-WebSocket-Protocol: chat\r\n\r\n") }

/-! ## Frames as the decoder sees them -/

/-- The decoder between two frames: no header in progress, `pending` bytes buffered,
and the fin flag and opcode of the frame it parsed last. -/
def rested_frame (fin : Bool) (opcode : Nat) (pending : Bytes) : websocket_frame :=
  { buffer_ := pending, header_ready_ := false, fin_ := fin, opcode_ := opcode,
    mask_enable_ := false, masking_key_ := [], payload_len_ := 0, payload_start_ := 0 }

/-- Decoding of a byte string that is exactly one complete frame, by a decoder with
nothing buffered: the fin flag, the opcode and the (unmasked) payload; `none` when the
bytes are not one complete frame with nothing left over. -/
def decode_frame (bytes : Bytes) : Option (Bool × Nat × Bytes) :=
  let r := (rested_frame false 0 []).parse bytes
  if r.2 = 0 ∧ r.1.payload_is_ready = true
      ∧ r.1.get_payload_start + r.1.get_payload_len = bytes.length then
    some (r.1.get_fin, r.1.get_oper_code, r.1.get_payload_data)
  else none

/-- What one pass of the loop of `on_handle_frame` does with a decoded frame
`(fin, opcode, payload)` that is followed by the buffered bytes `rest`: the payload
joins the chunk collection, and a frame with the fin flag is dispatched, after which
the collection is cleared. -/
def frame_step (s : Session) (rest : Bytes) (d : Bool × Nat × Bytes) : Session :=
  if d.1 then
    { on_handle_frame_dispatch
        { s with frame_ := rested_frame true d.2.1 rest,
                 recv_buffer_vec_ := s.recv_buffer_vec_ ++ [d.2.2],
                 die_count_ := 0 } with recv_buffer_vec_ := [] }
  else
    { s with frame_ := rested_frame false d.2.1 rest,
             recv_buffer_vec_ := s.recv_buffer_vec_ ++ [d.2.2] }

/-- The frames of a chunk handled one after the other, each by `frame_step` with the
frames behind it still buffered; it stops at bytes that are not a complete frame. -/
def feed_frames : Session → List Bytes → Session
  | s, [] => s
  | s, b :: bs =>
    match decode_frame b with
    | some d => feed_frames (frame_step s bs.flatten d) bs
    | none => s

/-- The header that `send_ws_frame` writes before a payload of `len` bytes with opcode
`op`: the fin bit with the opcode, then the length in one byte, or 126 and two
big-endian bytes, or 127 and eight big-endian bytes. -/
def ws_frame_header (len op : Nat) : Bytes :=
  if len < 126 then [128 + op % 16, len]
  else if len ≤ 65535 then [128 + op % 16, 126, len / 256 % 256, len % 256]
  else [128 + op % 16, 127, len / 2 ^ 56 % 256, len / 2 ^ 48 % 256, len / 2 ^ 40 % 256,
        len / 2 ^ 32 % 256, len / 2 ^ 24 % 256, len / 2 ^ 16 % 256, len / 2 ^ 8 % 256,
        len % 256]

/-- A session whose handshake is done: reads go to the frame path. -/
def open_session : Session :=
  { websocket_session true [] with http_request_ready_ := true }

/-! ## Theorems -/

theorem lor_0x80 (op : Nat) (h : op < 16) : 128 + op = 0x80 ||| op := by
  interval_cases op <;> rfl

theorem and_0xFF (x : Nat) : x &&& 0xFF = x % 256 :=
  Nat.and_pow_two_sub_one_eq_mod x 8

theorem send_ws_frame_small (s : Session) (data : Bytes) (op : Nat)
    (h : data.length < 126) :
    send_ws_frame s data op
      = { s with die_count_ := 0,
                 trace := s.trace ++ [Effect.async_write [128 + op % 16, data.length],
                                      Effect.async_write data] } := by
  have h1 : ¬ 126 ≤ data.length := by omega
  have h2 : data.length % 128 = data.length := Nat.mod_eq_of_lt (by omega)
  simp [send_ws_frame, async_write, modify_at, set_fin, set_opcode, set_payload_len,
    set_mask, h1, h2]

theorem send_ws_frame_medium (s : Session) (data : Bytes) (op : Nat)
    (h1 : 126 ≤ data.length) (h2 : data.length ≤ 65535) :
    send_ws_frame s data op
      = { s with die_count_ := 0,
                 trace := s.trace ++ [Effect.async_write
                      [128 + op % 16, 126, data.length / 256 % 256, data.length % 256],
                    Effect.async_write data] } := by
  have h3 : ¬ 65535 < data.length := by omega
  simp [send_ws_frame, async_write, modify_at, set_fin, set_opcode, set_payload_len,
    set_mask, UINT16_MAX, h1, h3, and_0xFF, Nat.shiftRight_eq_div_pow]

theorem send_ws_frame_large (s : Session) (data : Bytes) (op : Nat)
    (h2 : 65535 < data.length) :
    send_ws_frame s data op
      = { s with die_count_ := 0,
                 trace := s.trace ++ [Effect.async_write
                      [128 + op % 16, 127,
                       data.length / 2 ^ 56 % 256, data.length / 2 ^ 48 % 256,
                       data.length / 2 ^ 40 % 256, data.length / 2 ^ 32 % 256,
                       data.length / 2 ^ 24 % 256, data.length / 2 ^ 16 % 256,
                       data.length / 2 ^ 8 % 256, data.length % 256],
                    Effect.async_write data] } := by
  have h1 : 126 ≤ data.length := by omega
  simp [send_ws_frame, async_write, modify_at, set_fin, set_opcode, set_payload_len,
    set_mask, UINT16_MAX, h1, h2, and_0xFF, Nat.shiftRight_eq_div_pow]

/-- Whatever the length, `send_ws_frame` only resets `die_count_` and appends two
writes, a header whose first byte is `0x80 + op mod 16` and then the payload. -/
theorem send_ws_frame_eq (s : Session) (data : Bytes) (op : Nat) :
    ∃ header : Bytes,
      send_ws_frame s data op
        = { s with die_count_ := 0,
                   trace := s.trace ++ [Effect.async_write header,
                                        Effect.async_write data] }
      ∧ header.head? = some (128 + op % 16) := by
  rcases Nat.lt_or_ge data.length 126 with h | h
  · exact ⟨_, send_ws_frame_small s data op h, rfl⟩
  · rcases Nat.lt_or_ge 65535 data.length with h2 | h2
    · exact ⟨_, send_ws_frame_large s data op h2, rfl⟩
    · exact ⟨_, send_ws_frame_medium s data op h h2, rfl⟩

/-- C1: for an opcode below 16 and a payload shorter than 2^64 bytes, `send_ws_frame`
issues exactly two transport writes, the header and then the payload unchanged; the
header starts with `0x80 | op`, and is 2 bytes with the length, or 4 bytes with 126 and
the length as 2 big-endian bytes, or 10 bytes with 127 and the length as 8 big-endian
bytes; the mask bit of byte 1 is 0. -/
theorem send_ws_frame_writes (s : Session) (data : Bytes) (op : Nat)
    (hop : op < 16) (hlen : data.length < 2 ^ 64) :
    ∃ header : Bytes,
      (send_ws_frame s data op).trace
        = s.trace ++ [Effect.async_write header, Effect.async_write data]
      ∧ header.head? = some (0x80 ||| op)
      ∧ (data.length < 126 → header = [0x80 ||| op, data.length])
      ∧ (126 ≤ data.length → data.length ≤ 65535 →
          header = [0x80 ||| op, 126, data.length / 256, data.length % 256]
          ∧ (data.length / 256) * 256 + data.length % 256 = data.length
          ∧ data.length / 256 < 256)
      ∧ (65535 < data.length →
          header = [0x80 ||| op, 127,
                    data.length / 2 ^ 56 % 256, data.length / 2 ^ 48 % 256,
                    data.length / 2 ^ 40 % 256, data.length / 2 ^ 32 % 256,
                    data.length / 2 ^ 24 % 256, data.length / 2 ^ 16 % 256,
                    data.length / 2 ^ 8 % 256, data.length % 256]
          ∧ (data.length / 2 ^ 56 % 256) * 2 ^ 56 + (data.length / 2 ^ 48 % 256) * 2 ^ 48
            + (data.length / 2 ^ 40 % 256) * 2 ^ 40 + (data.length / 2 ^ 32 % 256) * 2 ^ 32
            + (data.length / 2 ^ 24 % 256) * 2 ^ 24 + (data.length / 2 ^ 16 % 256) * 2 ^ 16
            + (data.length / 2 ^ 8 % 256) * 2 ^ 8 + data.length % 256 = data.length)
      ∧ (∀ b1, header.get? 1 = some b1 → b1 / 128 = 0) := by
  have e := lor_0x80 op hop
  have hm : op % 16 = op := Nat.mod_eq_of_lt hop
  rcases Nat.lt_or_ge data.length 126 with h | h
  · refine ⟨[128 + op % 16, data.length], by rw [send_ws_frame_small s data op h], ?_, ?_, ?_, ?_, ?_⟩
    · simp [hm, e]
    · intro _; simp [hm, e]
    · intro h'; omega
    · intro h'; omega
    · intro b1 hb
      simp at hb
      omega
  · rcases Nat.lt_or_ge 65535 data.length with h2 | h2
    · refine ⟨_, by rw [send_ws_frame_large s data op h2], ?_, ?_, ?_, ?_, ?_⟩
      · simp [hm, e]
      · intro h'; omega
      · intro _ h'; omega
      · intro _
        refine ⟨by simp [hm, e], ?_⟩
        norm_num at hlen ⊢
        omega
      · intro b1 hb
        simp at hb
        omega
    · refine ⟨_, by rw [send_ws_frame_medium s data op h h2], ?_, ?_, ?_, ?_, ?_⟩
      · simp [hm, e]
      · intro h'; omega
      · intro _ _
        refine ⟨?_, by omega, by omega⟩
        have : data.length / 256 % 256 = data.length / 256 := by omega
        simp [hm, e, this]
      · intro h'; omega
      · intro b1 hb
        simp at hb
        omega

/-- C1 at concrete inputs: a three-byte text frame and a 300-byte binary frame. -/
theorem send_ws_frame_writes_witness :
    (send_ws_frame (websocket_session true []) [104, 105, 33] 1).trace
      = [Effect.async_read, Effect.async_write [0x81, 3],
         Effect.async_write [104, 105, 33]]
    ∧ (send_ws_frame (websocket_session true []) (List.replicate 300 7) 2).trace
      = [Effect.async_read, Effect.async_write [0x82, 126, 1, 44],
         Effect.async_write (List.replicate 300 7)] := by
  constructor
  · obtain ⟨header, ht, _, hs, _⟩ :=
      send_ws_frame_writes (websocket_session true []) [104, 105, 33] 1
        (by decide) (by decide)
    rw [hs (by decide)] at ht
    exact ht
  · obtain ⟨header, ht, _, _, hm, _⟩ :=
      send_ws_frame_writes (websocket_session true []) (List.replicate 300 7) 2
        (by decide) (by simp only [List.length_replicate]; decide)
    rw [(hm (by simp only [List.length_replicate]; decide)
      (by simp only [List.length_replicate]; decide)).1] at ht
    simp only [List.length_replicate] at ht
    exact ht

theorem str_incomplete : str "Incomplete close code"
    = [73, 110, 99, 111, 109, 112, 108, 101, 116, 101, 32, 99, 108, 111, 115, 101, 32,
       99, 111, 100, 101] := by
  decide

theorem str_invalid : str "Invalid close code"
    = [73, 110, 118, 97, 108, 105, 100, 32, 99, 108, 111, 115, 101, 32, 99, 111, 100,
       101] := by
  decide

theorem send_close_incomplete (s : Session) (code : Nat) :
    send_close s code (str "Incomplete close code") 0
      = { s with die_count_ := 0,
                 trace := s.trace ++ [Effect.async_write [0x88, 21],
                            Effect.async_write (str "Incomplete close code")] } := by
  have hl : (str "Incomplete close code").length = 21 := by rw [str_incomplete]; rfl
  simp only [send_close, if_true, List.take_length]
  rw [send_ws_frame_small _ _ _ (by rw [hl]; decide), hl]
  rfl

theorem send_close_invalid (s : Session) (code : Nat) :
    send_close s code (str "Invalid close code") 0
      = { s with die_count_ := 0,
                 trace := s.trace ++ [Effect.async_write [0x88, 18],
                            Effect.async_write (str "Invalid close code")] } := by
  have hl : (str "Invalid close code").length = 18 := by rw [str_invalid]; rfl
  simp only [send_close, if_true, List.take_length]
  rw [send_ws_frame_small _ _ _ (by rw [hl]; decide), hl]
  rfl

theorem close_code_eq (d0 d1 : Nat) (h0 : d0 < 256) (h1 : d1 < 256) :
    (((d0 % 256) <<< 8) ||| (d1 % 256)) % 65536 = d0 * 256 + d1 := by
  rw [Nat.mod_eq_of_lt h0, Nat.mod_eq_of_lt h1, Nat.shiftLeft_eq, Nat.mul_comm d0,
    ← Nat.mul_add_lt_is_or (by simpa using h1) d0]
  norm_num
  omega

theorem close_code_invalid_iff (code : Nat) :
    close_code_invalid code = true ↔
      (code < 1000 ∨ code ≥ 5000 ∨ code = 1004 ∨ code = 1005 ∨ code = 1006 ∨ code = 1015) := by
  unfold close_code_invalid
  by_cases h1 : code < 1000 ∨ code ≥ 5000 <;>
    by_cases h2 : code = 1004 ∨ code = 1005 ∨ code = 1006 ∨ code = 1015 <;>
    simp [h1, h2]

/-- C2: on a session that is not closed, a close payload of at least two bytes whose
big-endian code is `d0 * 256 + d1` is classified invalid exactly when the code is below
1000, at least 5000, or one of 1004, 1005, 1006, 1015.  A valid code makes
`handle_ws_close` send one close frame (header starting with `0x88`) carrying the
received payload verbatim; an invalid code, and likewise a one-byte payload, makes it
send one close frame carrying the fixed protocol-error reason instead of the received
payload.  In every branch the session is then marked closed, `on_close` is invoked and
the transport is closed. -/
theorem handle_ws_close_code (s : Session) (d0 d1 : Nat) (rest : Bytes)
    (hc : s.close_ = false) (h0 : d0 < 256) (h1 : d1 < 256) :
    (close_code_invalid (d0 * 256 + d1) = true ↔
      (d0 * 256 + d1 < 1000 ∨ d0 * 256 + d1 ≥ 5000 ∨ d0 * 256 + d1 = 1004
        ∨ d0 * 256 + d1 = 1005 ∨ d0 * 256 + d1 = 1006 ∨ d0 * 256 + d1 = 1015))
    ∧ (close_code_invalid (d0 * 256 + d1) = false →
        ∃ header : Bytes, header.head? = some 0x88 ∧
          (handle_ws_close s (d0 :: d1 :: rest)).trace
            = s.trace ++ [Effect.async_write header,
                          Effect.async_write (d0 :: d1 :: rest),
                          Effect.on_close, Effect.close])
    ∧ (close_code_invalid (d0 * 256 + d1) = true →
        (handle_ws_close s (d0 :: d1 :: rest)).trace
          = s.trace ++ [Effect.async_write [0x88, 18],
                        Effect.async_write (str "Invalid close code"),
                        Effect.on_close, Effect.close])
    ∧ (∀ d : Nat,
        (handle_ws_close s [d]).trace
          = s.trace ++ [Effect.async_write [0x88, 21],
                        Effect.async_write (str "Incomplete close code"),
                        Effect.on_close, Effect.close]
        ∧ (handle_ws_close s [d]).close_ = true)
    ∧ (handle_ws_close s (d0 :: d1 :: rest)).close_ = true := by
  have hcode := close_code_eq d0 d1 h0 h1
  refine ⟨close_code_invalid_iff _, ?_, ?_, ?_, ?_⟩
  · intro hv
    obtain ⟨header, he, hh⟩ := send_ws_frame_eq s (d0 :: d1 :: rest) WS_OP_CLOSE_TYPE
    refine ⟨header, hh, ?_⟩
    simp [handle_ws_close, hc, hcode, hv, he]
  · intro hv
    simp [handle_ws_close, hc, hcode, hv, send_close_invalid]
  · intro d
    simp [handle_ws_close, hc, send_close_incomplete]
  · by_cases hv : close_code_invalid (d0 * 256 + d1) = true
    · simp [handle_ws_close, hc, hcode, hv]
    · simp [handle_ws_close, hc, hcode, hv]

/-- C2 at the codes 999, 1004, 1005, 1006, 1015, 5000 (rejected) and 1000, 1001, 1002,
1003, 3000, 4999 (echoed), on a freshly constructed session. -/
theorem handle_ws_close_code_witness :
    (handle_ws_close (websocket_session true []) [3, 231]).trace
          = (websocket_session true []).trace ++ [Effect.async_write [0x88, 18],
              Effect.async_write (str "Invalid close code"),
              Effect.on_close, Effect.close]
    ∧ (handle_ws_close (websocket_session true []) [3, 236]).trace
          = (websocket_session true []).trace ++ [Effect.async_write [0x88, 18],
              Effect.async_write (str "Invalid close code"),
              Effect.on_close, Effect.close]
    ∧ (handle_ws_close (websocket_session true []) [3, 237]).trace
          = (websocket_session true []).trace ++ [Effect.async_write [0x88, 18],
              Effect.async_write (str "Invalid close code"),
              Effect.on_close, Effect.close]
    ∧ (handle_ws_close (websocket_session true []) [3, 238]).trace
          = (websocket_session true []).trace ++ [Effect.async_write [0x88, 18],
              Effect.async_write (str "Invalid close code"),
              Effect.on_close, Effect.close]
    ∧ (handle_ws_close (websocket_session true []) [3, 247]).trace
          = (websocket_session true []).trace ++ [Effect.async_write [0x88, 18],
              Effect.async_write (str "Invalid close code"),
              Effect.on_close, Effect.close]
    ∧ (handle_ws_close (websocket_session true []) [19, 136]).trace
          = (websocket_session true []).trace ++ [Effect.async_write [0x88, 18],
              Effect.async_write (str "Invalid close code"),
              Effect.on_close, Effect.close]
    ∧ (∃ header : Bytes, header.head? = some 0x88 ∧
        (handle_ws_close (websocket_session true []) [3, 232]).trace
          = (websocket_session true []).trace ++ [Effect.async_write header,
              Effect.async_write [3, 232], Effect.on_close, Effect.close])
    ∧ (∃ header : Bytes, header.head? = some 0x88 ∧
        (handle_ws_close (websocket_session true []) [3, 233]).trace
          = (websocket_session true []).trace ++ [Effect.async_write header,
              Effect.async_write [3, 233], Effect.on_close, Effect.close])
    ∧ (∃ header : Bytes, header.head? = some 0x88 ∧
        (handle_ws_close (websocket_session true []) [3, 234]).trace
          = (websocket_session true []).trace ++ [Effect.async_write header,
              Effect.async_write [3, 234], Effect.on_close, Effect.close])
    ∧ (∃ header : Bytes, header.head? = some 0x88 ∧
        (handle_ws_close (websocket_session true []) [3, 235]).trace
          = (websocket_session true []).trace ++ [Effect.async_write header,
              Effect.async_write [3, 235], Effect.on_close, Effect.close])
    ∧ (∃ header : Bytes, header.head? = some 0x88 ∧
        (handle_ws_close (websocket_session true []) [11, 184]).trace
          = (websocket_session true []).trace ++ [Effect.async_write header,
              Effect.async_write [11, 184], Effect.on_close, Effect.close])
    ∧ (∃ header : Bytes, header.head? = some 0x88 ∧
        (handle_ws_close (websocket_session true []) [19, 135]).trace
          = (websocket_session true []).trace ++ [Effect.async_write header,
              Effect.async_write [19, 135], Effect.on_close, Effect.close]) :=
  ⟨(handle_ws_close_code (websocket_session true []) 3 231 [] rfl (by decide)
      (by decide)).2.2.1 (by decide),
    (handle_ws_close_code (websocket_session true []) 3 236 [] rfl (by decide)
      (by decide)).2.2.1 (by decide),
    (handle_ws_close_code (websocket_session true []) 3 237 [] rfl (by decide)
      (by decide)).2.2.1 (by decide),
    (handle_ws_close_code (websocket_session true []) 3 238 [] rfl (by decide)
      (by decide)).2.2.1 (by decide),
    (handle_ws_close_code (websocket_session true []) 3 247 [] rfl (by decide)
      (by decide)).2.2.1 (by decide),
    (handle_ws_close_code (websocket_session true []) 19 136 [] rfl (by decide)
      (by decide)).2.2.1 (by decide),
    (handle_ws_close_code (websocket_session true []) 3 232 [] rfl (by decide)
      (by decide)).2.1 (by decide),
    (handle_ws_close_code (websocket_session true []) 3 233 [] rfl (by decide)
      (by decide)).2.1 (by decide),
    (handle_ws_close_code (websocket_session true []) 3 234 [] rfl (by decide)
      (by decide)).2.1 (by decide),
    (handle_ws_close_code (websocket_session true []) 3 235 [] rfl (by decide)
      (by decide)).2.1 (by decide),
    (handle_ws_close_code (websocket_session true []) 11 184 [] rfl (by decide)
      (by decide)).2.1 (by decide),
    (handle_ws_close_code (websocket_session true []) 19 135 [] rfl (by decide)
      (by decide)).2.1 (by decide)⟩

/-- C3 at the close payload `03 E7` (code 999) on a fresh session: the reply frame
carries the bytes of the reason text only, so its payload starts with `49 6E`, not
with `03 EA`; and `send_close` gives the same result whatever `code` it is passed. -/
theorem send_close_drops_code :
    (handle_ws_close (websocket_session true []) [0x03, 0xE7]).trace
      = [Effect.async_read, Effect.async_write [0x88, 18],
         Effect.async_write [73, 110, 118, 97, 108, 105, 100, 32, 99, 108, 111, 115, 101,
           32, 99, 111, 100, 101],
         Effect.on_close, Effect.close]
    ∧ ¬ ([0x03, 0xEA] <+: [73, 110, 118, 97, 108, 105, 100, 32, 99, 108, 111, 115, 101,
           32, 99, 111, 100, 101])
    ∧ (∀ (s : Session) (code : Nat) (reason : Bytes) (n : Nat),
        send_close s code reason n = send_close s 1002 reason n) := by
  refine ⟨by decide, by decide, fun _ _ _ _ => rfl⟩

theorem handle_ws_close_open (s : Session) (data : Bytes) (hc : s.close_ = false) :
    ∃ header payload : Bytes,
      handle_ws_close s data
        = { s with die_count_ := 0, close_ := true,
                   trace := s.trace ++ [Effect.async_write header,
                     Effect.async_write payload, Effect.on_close, Effect.close] } := by
  unfold handle_ws_close
  simp only [hc, Bool.false_eq_true, if_false]
  split
  · exact ⟨[0x88, 21], str "Incomplete close code", by rw [send_close_incomplete]; simp⟩
  · split
    · exact ⟨[0x88, 18], str "Invalid close code", by rw [send_close_invalid]; simp⟩
    · obtain ⟨header, he, _⟩ := send_ws_frame_eq s data WS_OP_CLOSE_TYPE
      exact ⟨header, data, by rw [he]; simp⟩

theorem handle_ws_close_closed (s : Session) (data : Bytes) (hc : s.close_ = true) :
    handle_ws_close s data = s := by
  simp [handle_ws_close, hc]

theorem foldl_handle_ws_close_closed (payloads : List Bytes) (s : Session)
    (hc : s.close_ = true) : payloads.foldl handle_ws_close s = s := by
  induction payloads with
  | nil => rfl
  | cons p ps ih => simp [List.foldl, handle_ws_close_closed s p hc, ih]

/-- C4: a session that is not closed receives the close payloads `payloads`, in order,
and is then destroyed.  Over that lifetime `on_close` is invoked exactly once and the
transport `close()` exactly once: with at least one close frame the whole lifetime
equals handling the first frame alone (later frames and the destructor do nothing),
with none the destructor notifies and closes; a close frame on a closed session
changes nothing. -/
theorem on_close_exactly_once (s : Session) (payloads : List Bytes)
    (hc : s.close_ = false) :
    (websocket_session_destructor (payloads.foldl handle_ws_close s)).trace.count
        Effect.on_close = s.trace.count Effect.on_close + 1
    ∧ (websocket_session_destructor (payloads.foldl handle_ws_close s)).trace.count
        Effect.close = s.trace.count Effect.close + 1
    ∧ (∀ p ps, payloads = p :: ps →
        websocket_session_destructor (payloads.foldl handle_ws_close s)
          = handle_ws_close s p)
    ∧ (payloads = [] →
        (websocket_session_destructor (payloads.foldl handle_ws_close s)).trace
          = s.trace ++ [Effect.on_close, Effect.close])
    ∧ (∀ (t : Session) (p : Bytes), t.close_ = true → handle_ws_close t p = t) := by
  have hfirst : ∀ p ps, payloads = p :: ps →
      websocket_session_destructor (payloads.foldl handle_ws_close s)
        = handle_ws_close s p := by
    intro p ps hp
    obtain ⟨header, payload, he⟩ := handle_ws_close_open s p hc
    have hcl : (handle_ws_close s p).close_ = true := by rw [he]
    subst hp
    rw [List.foldl_cons, foldl_handle_ws_close_closed ps _ hcl]
    simp [websocket_session_destructor, hcl]
  have hnil : payloads = [] →
      (websocket_session_destructor (payloads.foldl handle_ws_close s)).trace
        = s.trace ++ [Effect.on_close, Effect.close] := by
    intro hp
    subst hp
    simp [websocket_session_destructor, hc]
  refine ⟨?_, ?_, hfirst, hnil, handle_ws_close_closed⟩
  · cases payloads with
    | nil => rw [hnil rfl]; simp [List.count_append]
    | cons p ps =>
      rw [hfirst p ps rfl]
      obtain ⟨header, payload, he⟩ := handle_ws_close_open s p hc
      rw [he]
      simp [List.count_append, List.count_cons]
  · cases payloads with
    | nil => rw [hnil rfl]; simp [List.count_append]
    | cons p ps =>
      rw [hfirst p ps rfl]
      obtain ⟨header, payload, he⟩ := handle_ws_close_open s p hc
      rw [he]
      simp [List.count_append, List.count_cons]

/-- C4 on a fresh session that receives two close frames (codes 1000 and 1001) and is
then destroyed: one `on_close`, one transport `close()`. -/
theorem on_close_exactly_once_witness :
    (websocket_session_destructor
        ([[3, 232], [3, 233]].foldl handle_ws_close (websocket_session true []))).trace.count
        Effect.on_close = (websocket_session true []).trace.count Effect.on_close + 1
    ∧ (websocket_session_destructor
        ([[3, 232], [3, 233]].foldl handle_ws_close (websocket_session true []))).trace.count
        Effect.close = (websocket_session true []).trace.count Effect.close + 1 :=
  ⟨(on_close_exactly_once (websocket_session true []) [[3, 232], [3, 233]] rfl).1,
   (on_close_exactly_once (websocket_session true []) [[3, 232], [3, 233]] rfl).2.1⟩

/-! ### The handshake parser -/

theorem find_eq_none_iff (s pat : Bytes) : find s pat = none ↔ ¬ pat <:+: s := by
  induction s with
  | nil =>
    cases pat with
    | nil => simp [find]
    | cons p ps => simp [find, List.isPrefixOf]
  | cons c cs ih =>
    unfold find
    by_cases hp : pat.isPrefixOf (c :: cs) = true
    · have : pat <+: c :: cs := List.isPrefixOf_iff_prefix.mp hp
      simp [hp, this.isInfix]
    · have hnp : ¬ pat <+: c :: cs := fun h => hp (List.isPrefixOf_iff_prefix.mpr h)
      simp only [hp, Bool.false_eq_true, if_false, Option.map_eq_none', ih,
        List.infix_cons_iff, hnp, false_or]

theorem find_single (c : Nat) (pre rest : Bytes) (h : c ∉ pre) :
    find (pre ++ c :: rest) [c] = some pre.length := by
  induction pre with
  | nil => simp [find, List.isPrefixOf]
  | cons x xs ih =>
    have hx : c ≠ x := fun e => h (by simp [e])
    have hxs : c ∉ xs := fun e => h (by simp [e])
    simp [find, List.isPrefixOf, hx, ih hxs]

/-- C8: when the pre-upgrade buffer does not contain `\r\n\r\n`,
`on_handle_http_request` returns `WS_RET_READ_MORE` and leaves the whole session as it
was: buffer, ready flag, header map, method, path, key, version, sub-protocol, and
every other member, with no collaborator called. -/
theorem on_handle_http_request_read_more (s : Session)
    (h : ¬ str "\r\n\r\n" <:+: s.http_recv_buffer_) :
    on_handle_http_request s = (s, .ok WS_RET_READ_MORE) := by
  have hf := (find_eq_none_iff s.http_recv_buffer_ (str "\r\n\r\n")).mpr h
  simp [on_handle_http_request, hf]

/-- C8 on a fresh session whose buffer holds a request line and one header, without
the blank line. -/
theorem on_handle_http_request_read_more_witness :
    on_handle_http_request
        { websocket_session true [] with
          http_recv_buffer_ := str "GET /chat HTTP/1.1\r\nHost: a\r\n" }
      = ({ websocket_session true [] with
           http_recv_buffer_ := str "GET /chat HTTP/1.1\r\nHost: a\r\n" },
         .ok WS_RET_READ_MORE) :=
  on_handle_http_request_read_more _ (by decide)

/-- C7: when the buffer contains `\r\n\r\n`, first at offset `pos`, and the request
line (the first piece of the text before it, split at `\r\n`; empty when there is no
piece) does not split at spaces into exactly three tokens, `on_handle_http_request`
throws the malformed-header error, and the header map, the method and the path are as
they were before the call. -/
theorem on_handle_http_request_bad_request_line (s : Session) (pos : Nat)
    (hfind : find s.http_recv_buffer_ (str "\r\n\r\n") = some pos)
    (hline : (string_split
      ((string_split (s.http_recv_buffer_.take pos) (str "\r\n")).getD 0 [])
      (str " ")).length ≠ 3) :
    (on_handle_http_request s).2 = .error "websocket http header error"
    ∧ (on_handle_http_request s).1.headers_ = s.headers_
    ∧ (on_handle_http_request s).1.method_ = s.method_
    ∧ (on_handle_http_request s).1.path_ = s.path_ := by
  unfold on_handle_http_request
  simp only [hfind]
  cases hl : string_split (s.http_recv_buffer_.take pos) (str "\r\n") with
  | nil => simp
  | cons l0 rest =>
    rw [hl] at hline
    simp at hline
    simp [hline]

/-- C7 on a fresh session whose buffer holds the two-token request line `GET /chat`
followed by a `Connection` header. -/
theorem on_handle_http_request_bad_request_line_witness :
    (on_handle_http_request
        { websocket_session true [] with
          http_recv_buffer_ := str "GET /chat\r\nConnection: Upgrade\r\n\r\n" }).2
      = .error "websocket http header error"
    ∧ (on_handle_http_request
        { websocket_session true [] with
          http_recv_buffer_ := str "GET /chat\r\nConnection: Upgrade\r\n\r\n" }).1.headers_
      = [] :=
  have h := on_handle_http_request_bad_request_line
    { websocket_session true [] with
      http_recv_buffer_ := str "GET /chat\r\nConnection: Upgrade\r\n\r\n" } 30
    (by decide) (by decide)
  ⟨h.1, h.2.1⟩

theorem headers_find_set (h : List (Bytes × Bytes)) (k v k' : Bytes) :
    headers_find (headers_set h k v) k' = if k' = k then some v else headers_find h k' := by
  induction h with
  | nil =>
    by_cases e : k' = k
    · simp [headers_set, headers_find, e]
    · have e' : ¬ k = k' := fun x => e x.symm
      simp [headers_set, headers_find, e, e']
  | cons kv t ih =>
    obtain ⟨a, b⟩ := kv
    by_cases hak : a = k
    · by_cases e : k' = k
      · simp [headers_set, headers_find, hak, e]
      · have e' : ¬ k = k' := fun x => e x.symm
        simp [headers_set, headers_find, hak, e, e']
    · by_cases hak' : a = k'
      · have e : ¬ k' = k := fun x => hak (hak'.trans x)
        simp [headers_set, headers_find, hak, hak', e]
      · simp [headers_set, headers_find, hak, hak', ih]

theorem on_handle_http_request_cases (s : Session) (pos : Nat) (l0 : Bytes)
    (rest : List Bytes)
    (hfind : find s.http_recv_buffer_ (str "\r\n\r\n") = some pos)
    (hlines : string_split (s.http_recv_buffer_.take pos) (str "\r\n") = l0 :: rest)
    (hitems : (string_split l0 (str " ")).length = 3) :
    (on_handle_http_request s).2 =
      match headers_find (rest.foldl parse_header_line s.headers_) (str "connection") with
      | none => .error "websocket http header error: Connection not exist"
      | some c =>
        if string2lower c ≠ str "upgrade" then
          .error "websocket http header error: Connection is not upgrade"
        else
          match headers_find (rest.foldl parse_header_line s.headers_) (str "upgrade") with
          | none => .error "websocket http header error: Upgrade not exist"
          | some u =>
            if string2lower u ≠ str "websocket" then
              .error "websocket http header error: upgrade is not websocket"
            else
              match headers_find (rest.foldl parse_header_line s.headers_)
                  (str "sec-websocket-key") with
              | none => .error "websocket http header error: Sec-WebSocket-Key not exist"
              | some _ => .ok WS_RET_OK := by
  have e1 : (str "upgrade" = str "connection") = False := by decide
  have e2 : (str "sec-websocket-key" = str "connection") = False := by decide
  have e3 : (str "sec-websocket-key" = str "upgrade") = False := by decide
  have e4 : (str "sec-websocket-version" = str "connection") = False := by decide
  have e5 : (str "sec-websocket-version" = str "upgrade") = False := by decide
  have hpos : ¬ ((rest.length : Int) + 1 ≤ 0) := by omega
  unfold on_handle_http_request
  simp only [hfind, hlines]
  rcases hc : headers_find (rest.foldl parse_header_line s.headers_) (str "connection")
    with _ | c
  · simp [hpos, hitems, hc]
  by_cases hcu : string2lower c = str "upgrade"
  swap
  · simp [hpos, hitems, hc, hcu]
  rcases hu : headers_find (rest.foldl parse_header_line s.headers_) (str "upgrade")
    with _ | u
  · simp [hpos, hitems, hc, hcu, hu, headers_find_set, e1]
  by_cases huw : string2lower u = str "websocket"
  swap
  · simp [hpos, hitems, hc, hcu, hu, huw, headers_find_set, e1]
  rcases hv : headers_find (rest.foldl parse_header_line s.headers_)
    (str "sec-websocket-version") with _ | v <;>
  rcases hk : headers_find (rest.foldl parse_header_line s.headers_)
    (str "sec-websocket-key") with _ | k <;>
  simp [hpos, hitems, hc, hcu, hu, huw, hv, hk, headers_find_set, e1, e2, e3, e4, e5]

/-- C5: for a buffer that contains `\r\n\r\n` (first at offset `pos`) and whose request
line `l0` splits into exactly three tokens, with `rest` the header lines:
`on_handle_http_request` returns `WS_RET_OK` exactly when the header map after the
header loop holds a `connection` value equal to `upgrade` ignoring case, an `upgrade`
value equal to `websocket` ignoring case, and a `sec-websocket-key`; otherwise it throws.
A missing `Connection`, a missing `Upgrade` and a missing `Sec-WebSocket-Key` are each
reported with their own message, and the three messages differ. -/
theorem on_handle_http_request_accepts_iff (s : Session) (pos : Nat) (l0 : Bytes)
    (rest : List Bytes)
    (hfind : find s.http_recv_buffer_ (str "\r\n\r\n") = some pos)
    (hlines : string_split (s.http_recv_buffer_.take pos) (str "\r\n") = l0 :: rest)
    (hitems : (string_split l0 (str " ")).length = 3) :
    ((on_handle_http_request s).2 = .ok WS_RET_OK ↔
      (∃ c, headers_find (rest.foldl parse_header_line s.headers_) (str "connection") = some c
          ∧ string2lower c = str "upgrade")
      ∧ (∃ u, headers_find (rest.foldl parse_header_line s.headers_) (str "upgrade") = some u
          ∧ string2lower u = str "websocket")
      ∧ (∃ k, headers_find (rest.foldl parse_header_line s.headers_)
          (str "sec-websocket-key") = some k))
    ∧ ((on_handle_http_request s).2 ≠ .ok WS_RET_OK →
        ∃ why, (on_handle_http_request s).2 = .error why)
    ∧ (headers_find (rest.foldl parse_header_line s.headers_) (str "connection") = none →
        (on_handle_http_request s).2
          = .error "websocket http header error: Connection not exist")
    ∧ ((∃ c, headers_find (rest.foldl parse_header_line s.headers_) (str "connection") = some c
          ∧ string2lower c = str "upgrade") →
        headers_find (rest.foldl parse_header_line s.headers_) (str "upgrade") = none →
        (on_handle_http_request s).2
          = .error "websocket http header error: Upgrade not exist")
    ∧ ((∃ c, headers_find (rest.foldl parse_header_line s.headers_) (str "connection") = some c
          ∧ string2lower c = str "upgrade") →
        (∃ u, headers_find (rest.foldl parse_header_line s.headers_) (str "upgrade") = some u
          ∧ string2lower u = str "websocket") →
        headers_find (rest.foldl parse_header_line s.headers_) (str "sec-websocket-key") = none →
        (on_handle_http_request s).2
          = .error "websocket http header error: Sec-WebSocket-Key not exist")
    ∧ ("websocket http header error: Connection not exist"
        ≠ "websocket http header error: Upgrade not exist"
      ∧ "websocket http header error: Connection not exist"
        ≠ "websocket http header error: Sec-WebSocket-Key not exist"
      ∧ "websocket http header error: Upgrade not exist"
        ≠ "websocket http header error: Sec-WebSocket-Key not exist") := by
  rw [on_handle_http_request_cases s pos l0 rest hfind hlines hitems]
  refine ⟨?_, ?_, ?_, ?_, ?_, by decide, by decide, by decide⟩
  · rcases hc : headers_find (rest.foldl parse_header_line s.headers_) (str "connection")
      with _ | c
    · simp
    by_cases hcu : string2lower c = str "upgrade"
    swap
    · simp [hcu]
    rcases hu : headers_find (rest.foldl parse_header_line s.headers_) (str "upgrade")
      with _ | u
    · simp [hcu]
    by_cases huw : string2lower u = str "websocket"
    swap
    · simp [hcu, huw]
    rcases hk : headers_find (rest.foldl parse_header_line s.headers_)
      (str "sec-websocket-key") with _ | k <;> simp [hcu, huw]
  · intro hne
    split at hne <;> try split at hne
    all_goals try split at hne
    all_goals try split at hne
    all_goals try split at hne
    all_goals first
      | exact ⟨_, rfl⟩
      | exact absurd rfl hne
      | simp_all
  · intro hc
    simp [hc]
  · rintro ⟨c, hc, hcu⟩ hu
    simp [hc, hcu, hu]
  · rintro ⟨c, hc, hcu⟩ ⟨u, hu, huw⟩ hk
    simp [hc, hcu, hu, huw, hk]

/-- C5 on the minimal valid request, which is accepted, and on the three requests that
each lack one required header, which are rejected with three different messages. -/
theorem on_handle_http_request_accepts_iff_witness :
    (on_handle_http_request minimal_request).2 = .ok WS_RET_OK
    ∧ (on_handle_http_request request_without_connection).2
        = .error "websocket http header error: Connection not exist"
    ∧ (on_handle_http_request request_without_upgrade).2
        = .error "websocket http header error: Upgrade not exist"
    ∧ (on_handle_http_request request_without_key).2
        = .error "websocket http header error: Sec-WebSocket-Key not exist" :=
  ⟨(on_handle_http_request_accepts_iff minimal_request 104 (str "GET /chat HTTP/1.1")
      [str "Connection: Upgrade", str "Upgrade: websocket",
       str "Sec-WebSocket-Key: dGhlIHNhbXBsZSBub25jZQ=="]
      (by decide) (by decide) (by decide)).1.mpr
      ⟨⟨str "Upgrade", by decide, by decide⟩, ⟨str "websocket", by decide, by decide⟩,
       ⟨str "dGhlIHNhbXBsZSBub25jZQ==", by decide⟩⟩,
   (on_handle_http_request_accepts_iff request_without_connection 83
      (str "GET /chat HTTP/1.1")
      [str "Upgrade: websocket", str "Sec-WebSocket-Key: dGhlIHNhbXBsZSBub25jZQ=="]
      (by decide) (by decide) (by decide)).2.2.1 (by decide),
   (on_handle_http_request_accepts_iff request_without_upgrade 84
      (str "GET /chat HTTP/1.1")
      [str "Connection: Upgrade", str "Sec-WebSocket-Key: dGhlIHNhbXBsZSBub25jZQ=="]
      (by decide) (by decide) (by decide)).2.2.2.1
      ⟨str "Upgrade", by decide, by decide⟩ (by decide),
   (on_handle_http_request_accepts_iff request_without_key 59
      (str "GET /chat HTTP/1.1")
      [str "Connection: Upgrade", str "Upgrade: websocket"]
      (by decide) (by decide) (by decide)).2.2.2.2.1
      ⟨str "Upgrade", by decide, by decide⟩ ⟨str "websocket", by decide, by decide⟩
      (by decide)⟩

/-! ### Header lines -/

theorem split_header_line_form (name value : Bytes) (hname : 32 ∉ name) :
    split_header_line (name ++ str ": " ++ value) = some (string2lower name, value) := by
  have e1 : str ": " = [58, 32] := by decide
  have e2 : str " " = [32] := by decide
  have hmem : 32 ∉ name ++ [58] := by simp [hname]
  have hf := find_single 32 (name ++ [58]) value hmem
  have hline : name ++ str ": " ++ value = (name ++ [58]) ++ 32 :: value := by
    simp [e1]
  have hdrop : List.drop (name.length + 1 + 1) (name ++ 58 :: 32 :: value) = value := by
    have h2 : name ++ 58 :: 32 :: value = (name ++ [58, 32]) ++ value := by simp
    rw [h2]
    exact List.drop_left' (by simp)
  unfold split_header_line
  rw [e2, hline, hf]
  simp [hdrop]

theorem foldl_parse_header_line_other (post : List Bytes) (key : Bytes)
    (hpost : ∀ l ∈ post, (split_header_line l).map Prod.fst ≠ some key)
    (headers : List (Bytes × Bytes)) :
    headers_find (post.foldl parse_header_line headers) key = headers_find headers key := by
  induction post generalizing headers with
  | nil => rfl
  | cons l ls ih =>
    have hl := hpost l (by simp)
    have hls : ∀ l' ∈ ls, (split_header_line l').map Prod.fst ≠ some key :=
      fun l' h' => hpost l' (by simp [h'])
    rw [List.foldl_cons, ih hls]
    unfold parse_header_line
    rcases hs : split_header_line l with _ | ⟨k, v⟩
    · rfl
    · have hk : ¬ key = k := by
        intro e
        apply hl
        simp [hs, e]
      simp [headers_find_set, hk]

/-- The header loop on a line of the form `Name: value` whose name holds no space: the
line is stored under the name folded to lower case, with everything after the
separating space as its value; and when the loop ends the map holds, for that key, the
value of the last line that stores under it. -/
theorem header_line_last_wins (headers : List (Bytes × Bytes)) (pre post : List Bytes)
    (name value : Bytes) (hname : 32 ∉ name)
    (hpost : ∀ l ∈ post, (split_header_line l).map Prod.fst ≠ some (string2lower name)) :
    split_header_line (name ++ str ": " ++ value) = some (string2lower name, value)
    ∧ headers_find
        ((pre ++ [name ++ str ": " ++ value] ++ post).foldl parse_header_line headers)
        (string2lower name) = some value := by
  refine ⟨split_header_line_form name value hname, ?_⟩
  rw [List.foldl_append, foldl_parse_header_line_other post _ hpost, List.foldl_append]
  have h := split_header_line_form name value hname
  rw [List.append_assoc] at h
  simp [parse_header_line, h, headers_find_set]

/-- The header lines `Host: a`, `HOST: b`, `Origin: c`: the key `host` holds `b`. -/
theorem header_line_last_wins_witness :
    split_header_line (str "HOST" ++ str ": " ++ str "b")
      = some (string2lower (str "HOST"), str "b")
    ∧ headers_find
        (([str "Host: a"] ++ [str "HOST" ++ str ": " ++ str "b"] ++ [str "Origin: c"]).foldl
          parse_header_line [])
        (string2lower (str "HOST")) = some (str "b") :=
  header_line_last_wins [] [str "Host: a"] [str "Origin: c"] (str "HOST") (str "b")
    (by decide) (by decide)

/-- C6 on the header line `User-Agent:Mozilla/5.0 (X11)` of an otherwise valid request:
the text before the colon is `User-Agent`, so the key to store is `user-agent`; the
statement `line.substr(0, pos - 1);//remove ':'` takes `pos` from the first space of
the line and drops the one character before it, here the `0`, and keeps the colon:
the line is stored under the key `user-agent:mozilla/5.`, and after
`on_handle_http_request` the header map has no key `user-agent`. -/
theorem header_key_not_before_colon :
    spec_split_header_line (str "User-Agent:Mozilla/5.0 (X11)")
      = (str "user-agent", str "(X11)")
    ∧ split_header_line (str "User-Agent:Mozilla/5.0 (X11)")
      = some (str "user-agent:mozilla/5.", str "(X11)")
    ∧ split_header_line (str "User-Agent:Mozilla/5.0 (X11)")
      ≠ some (spec_split_header_line (str "User-Agent:Mozilla/5.0 (X11)"))
    ∧ (on_handle_http_request request_with_user_agent).2 = .ok WS_RET_OK
    ∧ headers_find (on_handle_http_request request_with_user_agent).1.headers_
        (str "user-agent") = none
    ∧ headers_find (on_handle_http_request request_with_user_agent).1.headers_
        (str "user-agent:mozilla/5.") = some (str "(X11)") := by
  refine ⟨by decide, by decide, by decide, rfl, by decide, by decide⟩

/-! ### Responses and the read callback -/

theorem on_handle_http_request_frame (s : Session) :
    (on_handle_http_request s).1.trace = s.trace
    ∧ (on_handle_http_request s).1.http_recv_buffer_ = s.http_recv_buffer_
    ∧ (on_handle_http_request s).1.server_ = s.server_
    ∧ (on_handle_http_request s = (s, .ok WS_RET_READ_MORE)
      ∨ ((on_handle_http_request s).1.http_request_ready_ = true
        ∧ ((on_handle_http_request s).2 = .ok WS_RET_OK
          ∨ ∃ why, (on_handle_http_request s).2 = .error why))) := by
  have e1 : (str "upgrade" = str "connection") = False := by decide
  have e2 : (str "sec-websocket-key" = str "connection") = False := by decide
  have e3 : (str "sec-websocket-key" = str "upgrade") = False := by decide
  have e4 : (str "sec-websocket-version" = str "connection") = False := by decide
  have e5 : (str "sec-websocket-version" = str "upgrade") = False := by decide
  have e6 : (str "sec-webSocket-protocol" = str "connection") = False := by decide
  have e7 : (str "sec-webSocket-protocol" = str "upgrade") = False := by decide
  rcases hf : find s.http_recv_buffer_ (str "\r\n\r\n") with _ | pos
  · simp [on_handle_http_request, hf]
  rcases hl : string_split (s.http_recv_buffer_.take pos) (str "\r\n") with _ | ⟨l0, rest⟩
  · simp [on_handle_http_request, hf, hl]
  have hpos : ¬ ((rest.length : Int) + 1 ≤ 0) := by omega
  by_cases hi : (string_split l0 (str " ")).length = 3
  swap
  · simp [on_handle_http_request, hf, hl, hi]
  rcases hc : headers_find (rest.foldl parse_header_line s.headers_) (str "connection")
    with _ | c
  · simp [on_handle_http_request, hf, hl, hi, hpos, hc]
  by_cases hcu : string2lower c = str "upgrade"
  swap
  · simp [on_handle_http_request, hf, hl, hi, hpos, hc, hcu]
  rcases hu : headers_find (rest.foldl parse_header_line s.headers_) (str "upgrade")
    with _ | u
  · simp [on_handle_http_request, hf, hl, hi, hpos, hc, hcu, hu, headers_find_set, e1]
  by_cases huw : string2lower u = str "websocket"
  swap
  · simp [on_handle_http_request, hf, hl, hi, hpos, hc, hcu, hu, huw, headers_find_set, e1]
  rcases hv : headers_find (rest.foldl parse_header_line s.headers_)
    (str "sec-websocket-version") with _ | v <;>
  rcases hk : headers_find (rest.foldl parse_header_line s.headers_)
    (str "sec-websocket-key") with _ | k <;>
  rcases hp : headers_find (rest.foldl parse_header_line s.headers_)
    (str "sec-webSocket-protocol") with _ | pr <;>
  simp [on_handle_http_request, hf, hl, hi, hpos, hc, hcu, hu, huw, hv, hk, hp,
    headers_find_set, e1, e2, e3, e4, e5, e6, e7]

theorem str_response_head :
    ([] : Bytes) ++ str "HTTP/1.1 101 Switching Protocols" ++ str "\r\n"
        ++ str "Upgrade: websocket" ++ str "\r\n" ++ str "Connection: Upgrade" ++ str "\r\n"
        ++ str "Sec-WebSocket-Accept: "
      = str ("HTTP/1.1 101 Switching Protocols\r\nUpgrade: websocket\r\n"
          ++ "Connection: Upgrade\r\nSec-WebSocket-Accept: ") := by
  decide

theorem str_response_tail : str "\r\n" ++ str "\r\n" = str "\r\n\r\n" := by
  decide

theorem send_http_response_eq (s : Session) :
    send_http_response s
      = ({ s with
            hash_code_ := (gen_hashcode s).hash_code_,
            trace := s.trace ++ [Effect.async_write
              (str ("HTTP/1.1 101 Switching Protocols\r\nUpgrade: websocket\r\n"
                  ++ "Connection: Upgrade\r\nSec-WebSocket-Accept: ")
                ++ (gen_hashcode s).hash_code_ ++ str "\r\n\r\n")] }, WS_RET_OK) := by
  unfold send_http_response
  simp only [async_write]
  rw [str_response_head]
  simp only [List.append_assoc, str_response_tail]
  rfl

/-- C10: `send_http_response` performs a single transport write, of the status line
`101 Switching Protocols`, the headers `Upgrade: websocket`, `Connection: Upgrade` and
`Sec-WebSocket-Accept:` with the accept value that `gen_hashcode` has just computed,
each ended by `\r\n`, and the blank line, with no body; `send_error_response` performs a
single write of `HTTP/1.1 400 Bad Request\r\n\r\n`. -/
theorem handshake_responses (s : Session) :
    (send_http_response s).1.trace
      = s.trace ++ [Effect.async_write
          (str ("HTTP/1.1 101 Switching Protocols\r\nUpgrade: websocket\r\n"
              ++ "Connection: Upgrade\r\nSec-WebSocket-Accept: ")
            ++ (gen_hashcode s).hash_code_ ++ str "\r\n\r\n")]
    ∧ (send_http_response s).1.hash_code_ = (gen_hashcode s).hash_code_
    ∧ (send_http_response s).2 = WS_RET_OK
    ∧ (send_error_response s).trace
      = s.trace ++ [Effect.async_write (str "HTTP/1.1 400 Bad Request\r\n\r\n")] := by
  rw [send_http_response_eq]
  exact ⟨rfl, rfl, rfl, rfl⟩

theorem foldl_ready {α : Type} (f : Session → α → Session)
    (hf : ∀ s a, (f s a).http_request_ready_ = s.http_request_ready_)
    (l : List α) (s : Session) :
    (l.foldl f s).http_request_ready_ = s.http_request_ready_ := by
  induction l generalizing s with
  | nil => rfl
  | cons a as ih => rw [List.foldl_cons, ih, hf]

theorem send_ws_frame_ready (s : Session) (data : Bytes) (op : Nat) :
    (send_ws_frame s data op).http_request_ready_ = s.http_request_ready_ := by
  obtain ⟨header, he, _⟩ := send_ws_frame_eq s data op
  rw [he]

theorem handle_ws_close_ready (s : Session) (data : Bytes) :
    (handle_ws_close s data).http_request_ready_ = s.http_request_ready_ := by
  by_cases hc : s.close_ = true
  · rw [handle_ws_close_closed s data hc]
  · obtain ⟨header, payload, he⟩ := handle_ws_close_open s data (by simpa using hc)
    rw [he]

theorem on_handle_frame_dispatch_ready (s : Session) :
    (on_handle_frame_dispatch s).http_request_ready_ = s.http_request_ready_ := by
  unfold on_handle_frame_dispatch handle_ws_ping
  split_ifs
  · exact foldl_ready _ (fun t a => send_ws_frame_ready t a _) _ _
  · rfl
  · exact foldl_ready _ handle_ws_close_ready _ _
  · exact foldl_ready handle_ws_bin (fun _ _ => rfl) _ _
  · exact foldl_ready handle_ws_text (fun _ _ => rfl) _ _
  · exact foldl_ready handle_ws_bin (fun _ _ => rfl) _ _
  · rfl

theorem on_handle_frame_body_ready (s : Session) (data : Bytes) (i : Nat) :
    (on_handle_frame_body s data i).1.http_request_ready_ = s.http_request_ready_ := by
  unfold on_handle_frame_body
  simp only []
  split_ifs <;> simp [on_handle_frame_dispatch_ready]

theorem on_handle_frame_loop_ready (fuel : Nat) (s : Session) (data : Bytes) (i : Nat) :
    (on_handle_frame_loop fuel s data i).http_request_ready_ = s.http_request_ready_ := by
  induction fuel generalizing s i with
  | zero => rfl
  | succ n ih =>
    unfold on_handle_frame_loop
    simp only []
    split_ifs
    · rw [ih, on_handle_frame_body_ready]
    · rw [on_handle_frame_body_ready]

theorem on_read_frame_path (t : Session) (d : Bytes) (ht : t.http_request_ready_ = true) :
    on_read t 0 d = async_read (on_handle_frame t d)
    ∧ (on_read t 0 d).http_request_ready_ = true := by
  have h1 : on_read t 0 d = async_read (on_handle_frame t d) := by
    simp [on_read, ht]
  refine ⟨h1, ?_⟩
  rw [h1]
  simp only [async_read, on_handle_frame]
  rw [on_handle_frame_loop_ready, ht]

theorem on_read_frame_path_all (ds : List Bytes) (t : Session)
    (ht : t.http_request_ready_ = true) :
    (ds.foldl (fun u d => on_read u 0 d) t).http_request_ready_ = true := by
  induction ds generalizing t with
  | nil => exact ht
  | cons d ds ih => exact ih _ (on_read_frame_path t d ht).2

theorem on_read_ok (s : Session) (data : Bytes) (h : s.http_request_ready_ = false)
    (s2 : Session) (ret : Int)
    (hr : on_handle_http_request
      { s with http_recv_buffer_ := s.http_recv_buffer_ ++ data } = (s2, .ok ret)) :
    on_read s 0 data =
      if ret = WS_RET_READ_MORE then async_read s2
      else if ret = WS_RET_OK then
        async_read { (send_http_response s2).1 with http_recv_buffer_ := [] }
      else if s2.server_ then session_close (send_error_response s2)
      else send_error_response s2 := by
  unfold on_read
  simp only [h] at hr
  simp only [ne_eq, not_true_eq_false, if_false, h, Bool.not_false, if_true]
  rw [hr]
  simp [send_http_response_eq, send_error_response, async_write]

theorem on_read_error (s : Session) (data : Bytes) (h : s.http_request_ready_ = false)
    (s2 : Session) (why : String)
    (hr : on_handle_http_request
      { s with http_recv_buffer_ := s.http_recv_buffer_ ++ data } = (s2, .error why)) :
    on_read s 0 data =
      if s2.server_ then session_close (send_error_response s2)
      else send_error_response s2 := by
  unfold on_read
  simp only [h] at hr
  simp only [ne_eq, not_true_eq_false, if_false, h, Bool.not_false, if_true]
  rw [hr]
  simp [send_error_response, async_write]

theorem SHA1_length (msg : Bytes) : (SHA1 msg).length = 20 := by
  simp [SHA1, be32]

theorem gen_hashcode_hash_code (s : Session) :
    (gen_hashcode s).hash_code_
      = base64_encode (SHA1 (s.sec_ws_key_ ++ str "258EAFA5-E914-47DA-95CA-C5AB0DC85B11")) := by
  simp only [gen_hashcode]
  rw [List.take_of_length_le (by rw [SHA1_length])]

theorem on_handle_http_request_key (s : Session)
    (h : (on_handle_http_request s).2 = .ok WS_RET_OK) :
    ∃ pos l0 rest,
      find s.http_recv_buffer_ (str "\r\n\r\n") = some pos
      ∧ string_split (s.http_recv_buffer_.take pos) (str "\r\n") = l0 :: rest
      ∧ headers_find (rest.foldl parse_header_line s.headers_) (str "sec-websocket-key")
          = some (on_handle_http_request s).1.sec_ws_key_
      ∧ headers_find (on_handle_http_request s).1.headers_ (str "sec-websocket-key")
          = some (on_handle_http_request s).1.sec_ws_key_ := by
  have hne : ¬ WS_RET_READ_MORE = WS_RET_OK := by decide
  have e1 : (str "upgrade" = str "connection") = False := by decide
  have e2 : (str "sec-websocket-key" = str "connection") = False := by decide
  have e3 : (str "sec-websocket-key" = str "upgrade") = False := by decide
  have e4 : (str "sec-websocket-version" = str "connection") = False := by decide
  have e5 : (str "sec-websocket-version" = str "upgrade") = False := by decide
  have e6 : (str "sec-webSocket-protocol" = str "connection") = False := by decide
  have e7 : (str "sec-webSocket-protocol" = str "upgrade") = False := by decide
  rcases hf : find s.http_recv_buffer_ (str "\r\n\r\n") with _ | pos
  · simp [on_handle_http_request, hf, hne] at h
  rcases hl : string_split (s.http_recv_buffer_.take pos) (str "\r\n") with _ | ⟨l0, rest⟩
  · simp [on_handle_http_request, hf, hl] at h
  have hpos : ¬ ((rest.length : Int) + 1 ≤ 0) := by omega
  by_cases hi : (string_split l0 (str " ")).length = 3
  swap
  · simp [on_handle_http_request, hf, hl, hi] at h
  rcases hc : headers_find (rest.foldl parse_header_line s.headers_) (str "connection")
    with _ | c
  · simp [on_handle_http_request, hf, hl, hi, hpos, hc] at h
  by_cases hcu : string2lower c = str "upgrade"
  swap
  · simp [on_handle_http_request, hf, hl, hi, hpos, hc, hcu] at h
  rcases hu : headers_find (rest.foldl parse_header_line s.headers_) (str "upgrade")
    with _ | u
  · simp [on_handle_http_request, hf, hl, hi, hpos, hc, hcu, hu, headers_find_set, e1] at h
  by_cases huw : string2lower u = str "websocket"
  swap
  · simp [on_handle_http_request, hf, hl, hi, hpos, hc, hcu, hu, huw, headers_find_set,
      e1] at h
  rcases hk : headers_find (rest.foldl parse_header_line s.headers_)
    (str "sec-websocket-key") with _ | k
  · rcases hv : headers_find (rest.foldl parse_header_line s.headers_)
      (str "sec-websocket-version") with _ | v <;>
    simp [on_handle_http_request, hf, hl, hi, hpos, hc, hcu, hu, huw, hv, hk,
      headers_find_set, e1, e2, e3, e4, e5] at h
  refine ⟨pos, l0, rest, rfl, hl, ?_, ?_⟩ <;>
  rcases hv : headers_find (rest.foldl parse_header_line s.headers_)
    (str "sec-websocket-version") with _ | v <;>
  rcases hp : headers_find (rest.foldl parse_header_line s.headers_)
    (str "sec-webSocket-protocol") with _ | pr <;>
  simp [on_handle_http_request, hf, hl, hi, hpos, hc, hcu, hu, huw, hv, hk, hp,
    headers_find_set, e1, e2, e3, e4, e5, e6, e7]

/-- C9: a successful read on a session that awaits the handshake appends the chunk
to the pre-upgrade buffer and hands the buffer to the parser, whose outcome is one of
three.  Need-more-data: nothing is written, one read is armed, the buffer keeps the
chunk.  Parsed: the key is the value that the header loop over the lines of the request
has stored under `sec-websocket-key`, and the 101 response alone is written, with the
accept value `base64_encode (SHA1 (key ++ GUID))` of that key, which is also left in
`hash_code_`; the buffer is emptied, one read is armed, and the session stays ready
through every later successful read, each of which goes to the frame path
(`on_handle_frame`, then one armed read).  Thrown error: the 400 response alone is
written, `session_close` is invoked when a server is attached, and no read is armed. -/
theorem on_read_handshake (s : Session) (data : Bytes)
    (h : s.http_request_ready_ = false) :
    ((on_handle_http_request
          { s with http_recv_buffer_ := s.http_recv_buffer_ ++ data }).2
        = .ok WS_RET_READ_MORE
      ∨ (on_handle_http_request
          { s with http_recv_buffer_ := s.http_recv_buffer_ ++ data }).2 = .ok WS_RET_OK
      ∨ ∃ why, (on_handle_http_request
          { s with http_recv_buffer_ := s.http_recv_buffer_ ++ data }).2 = .error why)
    ∧ ((on_handle_http_request
          { s with http_recv_buffer_ := s.http_recv_buffer_ ++ data }).2
        = .ok WS_RET_READ_MORE →
        on_read s 0 data
          = async_read { s with http_recv_buffer_ := s.http_recv_buffer_ ++ data }
        ∧ (on_read s 0 data).trace = s.trace ++ [Effect.async_read])
    ∧ ((on_handle_http_request
          { s with http_recv_buffer_ := s.http_recv_buffer_ ++ data }).2 = .ok WS_RET_OK →
        (∃ pos l0 rest,
          find (s.http_recv_buffer_ ++ data) (str "\r\n\r\n") = some pos
          ∧ string_split ((s.http_recv_buffer_ ++ data).take pos) (str "\r\n") = l0 :: rest
          ∧ headers_find (rest.foldl parse_header_line s.headers_)
              (str "sec-websocket-key")
            = some (on_handle_http_request
                { s with http_recv_buffer_ := s.http_recv_buffer_ ++ data }).1.sec_ws_key_)
        ∧ (on_read s 0 data).trace
          = s.trace ++ [Effect.async_write
              (str ("HTTP/1.1 101 Switching Protocols\r\nUpgrade: websocket\r\n"
                  ++ "Connection: Upgrade\r\nSec-WebSocket-Accept: ")
                ++ base64_encode (SHA1
                    ((on_handle_http_request
                        { s with http_recv_buffer_ := s.http_recv_buffer_ ++ data }).1.sec_ws_key_
                      ++ str "258EAFA5-E914-47DA-95CA-C5AB0DC85B11"))
                ++ str "\r\n\r\n"),
              Effect.async_read]
        ∧ (on_read s 0 data).hash_code_
          = base64_encode (SHA1
              ((on_handle_http_request
                  { s with http_recv_buffer_ := s.http_recv_buffer_ ++ data }).1.sec_ws_key_
                ++ str "258EAFA5-E914-47DA-95CA-C5AB0DC85B11"))
        ∧ (on_read s 0 data).http_recv_buffer_ = []
        ∧ (∀ ds : List Bytes,
            (ds.foldl (fun u d => on_read u 0 d) (on_read s 0 data)).http_request_ready_
              = true)
        ∧ (∀ (t : Session) (d : Bytes), t.http_request_ready_ = true →
            on_read t 0 d = async_read (on_handle_frame t d)))
    ∧ (∀ why, (on_handle_http_request
          { s with http_recv_buffer_ := s.http_recv_buffer_ ++ data }).2 = .error why →
        (on_read s 0 data).trace
          = s.trace ++ [Effect.async_write (str "HTTP/1.1 400 Bad Request\r\n\r\n")]
              ++ (if s.server_ then [Effect.session_close] else [])
        ∧ (on_read s 0 data).http_recv_buffer_ = s.http_recv_buffer_ ++ data) := by
  have hne : WS_RET_OK ≠ WS_RET_READ_MORE := by decide
  obtain ⟨ht, hb, hsv, hshape⟩ :=
    on_handle_http_request_frame { s with http_recv_buffer_ := s.http_recv_buffer_ ++ data }
  have hkey :=
    on_handle_http_request_key { s with http_recv_buffer_ := s.http_recv_buffer_ ++ data }
  have hroute : ∀ (t : Session) (d : Bytes), t.http_request_ready_ = true →
      on_read t 0 d = async_read (on_handle_frame t d) :=
    fun t d ht => (on_read_frame_path t d ht).1
  rcases hr : on_handle_http_request
      { s with http_recv_buffer_ := s.http_recv_buffer_ ++ data } with ⟨s2, why | ret⟩
  · rw [hr] at ht hb hsv
    simp only at ht hb hsv
    refine ⟨Or.inr (Or.inr ⟨why, rfl⟩), ?_, ?_, ?_⟩
    · intro hx; cases hx
    · intro hx; cases hx
    · intro why' _
      rw [on_read_error s data h s2 _ hr]
      by_cases hserver : s.server_ = true
      · simp [send_error_response, async_write, session_close, ht, hb, hsv, hserver]
      · simp [send_error_response, async_write, session_close, ht, hb, hsv, hserver]
  · rw [hr] at ht hb hsv hshape hkey
    simp only at ht hb hsv hshape hkey
    rcases hshape with hmore | ⟨hready, hok | ⟨why, hw⟩⟩
    · obtain ⟨hs2, hret⟩ := Prod.mk.inj hmore
      have hret' : ret = WS_RET_READ_MORE := by injection hret
      subst hs2 hret'
      refine ⟨Or.inl rfl, ?_, ?_, ?_⟩
      · intro _
        rw [on_read_ok s data h _ _ hr]
        constructor
        · simp
        · simp [async_read]
      · intro hx
        injection hx with hx
        exact absurd hx.symm hne
      · intro why' hx; cases hx
    · have hret : ret = WS_RET_OK := by injection hok
      subst hret
      have hstep : on_read s 0 data
          = async_read { (send_http_response s2).1 with http_recv_buffer_ := [] } := by
        rw [on_read_ok s data h s2 _ hr]
        simp [hne]
      refine ⟨Or.inr (Or.inl rfl), ?_, ?_, ?_⟩
      · intro hx
        injection hx with hx
        exact absurd hx hne
      · intro _
        obtain ⟨pos, l0, rest, hf, hl, hk, _⟩ := hkey rfl
        rw [hstep, send_http_response_eq, gen_hashcode_hash_code]
        refine ⟨⟨pos, l0, rest, hf, hl, hk⟩, by simp [async_read, ht], rfl, rfl, ?_, hroute⟩
        intro ds
        exact on_read_frame_path_all ds _ (by simpa [async_read] using hready)
      · intro why' hx; cases hx
    · cases hw

/-- C9 on a fresh session with a server attached: the first half of a request line
arms one read; the minimal valid request, whose key is `dGhlIHNhbXBsZSBub25jZQ==`, is
answered by the 101 response with the accept value `s3pPLMBiTxaQ9kYGzzhZRbK+xOo=` and
one armed read; a malformed request is answered by the 400 response and
`session_close`. -/
theorem on_read_handshake_witness :
    (on_read (websocket_session true []) 0 (str "GET /ch")).trace
      = (websocket_session true []).trace ++ [Effect.async_read]
    ∧ (on_read (websocket_session true []) 0 minimal_request.http_recv_buffer_).trace
      = (websocket_session true []).trace ++ [Effect.async_write
            (str ("HTTP/1.1 101 Switching Protocols\r\nUpgrade: websocket\r\n"
                ++ "Connection: Upgrade\r\n"
                ++ "Sec-WebSocket-Accept: s3pPLMBiTxaQ9kYGzzhZRbK+xOo=\r\n\r\n")),
            Effect.async_read]
    ∧ (on_read (websocket_session true []) 0 (str "GET /chat\r\n\r\n")).trace
      = (websocket_session true []).trace
          ++ [Effect.async_write (str "HTTP/1.1 400 Bad Request\r\n\r\n")]
          ++ (if (websocket_session true []).server_ then [Effect.session_close] else []) := by
  have hv : str ("HTTP/1.1 101 Switching Protocols\r\nUpgrade: websocket\r\n"
        ++ "Connection: Upgrade\r\nSec-WebSocket-Accept: ")
      ++ base64_encode (SHA1
          ((on_handle_http_request
              { websocket_session true [] with
                http_recv_buffer_ := (websocket_session true []).http_recv_buffer_
                  ++ minimal_request.http_recv_buffer_ }).1.sec_ws_key_
            ++ str "258EAFA5-E914-47DA-95CA-C5AB0DC85B11"))
      ++ str "\r\n\r\n"
      = str ("HTTP/1.1 101 Switching Protocols\r\nUpgrade: websocket\r\n"
          ++ "Connection: Upgrade\r\n"
          ++ "Sec-WebSocket-Accept: s3pPLMBiTxaQ9kYGzzhZRbK+xOo=\r\n\r\n") := by
    decide
  have hp := ((on_read_handshake (websocket_session true [])
    minimal_request.http_recv_buffer_ rfl).2.2.1 rfl).2.1
  rw [hv] at hp
  exact ⟨((on_read_handshake (websocket_session true []) (str "GET /ch") rfl).2.1 rfl).2,
    hp,
    ((on_read_handshake (websocket_session true []) (str "GET /chat\r\n\r\n") rfl).2.2.2
      "websocket http header error" rfl).1⟩

/-! ### The accept value and the sub-protocol -/

/-- C11: `gen_hashcode` sets the accept value to the Base64 encoding of the SHA-1
digest of the captured key followed by the GUID `258EAFA5-E914-47DA-95CA-C5AB0DC85B11`,
the digest being all 20 bytes of the SHA-1 output; for the key
`dGhlIHNhbXBsZSBub25jZQ==` the accept value is `s3pPLMBiTxaQ9kYGzzhZRbK+xOo=`. -/
theorem gen_hashcode_accept (s : Session) :
    (gen_hashcode s).hash_code_
      = base64_encode (SHA1 (s.sec_ws_key_ ++ str "258EAFA5-E914-47DA-95CA-C5AB0DC85B11"))
    ∧ (SHA1 (s.sec_ws_key_ ++ str "258EAFA5-E914-47DA-95CA-C5AB0DC85B11")).length = 20
    ∧ (gen_hashcode { s with sec_ws_key_ := str "dGhlIHNhbXBsZSBub25jZQ==" }).hash_code_
      = str "s3pPLMBiTxaQ9kYGzzhZRbK+xOo=" := by
  have hl := SHA1_length (s.sec_ws_key_ ++ str "258EAFA5-E914-47DA-95CA-C5AB0DC85B11")
  have hv : base64_encode ((SHA1 (str "dGhlIHNhbXBsZSBub25jZQ=="
      ++ str "258EAFA5-E914-47DA-95CA-C5AB0DC85B11")).take 20)
      = str "s3pPLMBiTxaQ9kYGzzhZRbK+xOo=" := by decide
  refine ⟨?_, hl, ?_⟩
  · simp only [gen_hashcode]
    rw [List.take_of_length_le (by omega)]
  · simp only [gen_hashcode]
    exact hv

theorem string2lower_ne_protocol_key (x : Bytes) :
    string2lower x ≠ str "sec-webSocket-protocol" := by
  intro h
  have h1 : 83 ∈ str "sec-webSocket-protocol" := by decide
  rw [← h] at h1
  simp only [string2lower, List.mem_map] at h1
  obtain ⟨c, _, hc⟩ := h1
  unfold tolower at hc
  split_ifs at hc <;> omega

theorem headers_find_protocol_key (lines : List Bytes) (headers : List (Bytes × Bytes)) :
    headers_find (lines.foldl parse_header_line headers) (str "sec-webSocket-protocol")
      = headers_find headers (str "sec-webSocket-protocol") := by
  apply foldl_parse_header_line_other
  intro l _
  unfold split_header_line
  split
  · simp
  · simp only [Option.map_some', ne_eq, Option.some.injEq]
    exact string2lower_ne_protocol_key _

theorem on_handle_http_request_protocol (s : Session)
    (h : headers_find s.headers_ (str "sec-webSocket-protocol") = none) :
    (on_handle_http_request s).1.sec_ws_protocol_ = s.sec_ws_protocol_ := by
  have e1 : (str "upgrade" = str "connection") = False := by decide
  have e2 : (str "sec-websocket-key" = str "connection") = False := by decide
  have e3 : (str "sec-websocket-key" = str "upgrade") = False := by decide
  have e4 : (str "sec-websocket-version" = str "connection") = False := by decide
  have e5 : (str "sec-websocket-version" = str "upgrade") = False := by decide
  have e6 : (str "sec-webSocket-protocol" = str "connection") = False := by decide
  have e7 : (str "sec-webSocket-protocol" = str "upgrade") = False := by decide
  rcases hf : find s.http_recv_buffer_ (str "\r\n\r\n") with _ | pos
  · simp [on_handle_http_request, hf]
  rcases hl : string_split (s.http_recv_buffer_.take pos) (str "\r\n") with _ | ⟨l0, rest⟩
  · simp [on_handle_http_request, hf, hl]
  have hp := headers_find_protocol_key rest s.headers_
  rw [h] at hp
  have hpos : ¬ ((rest.length : Int) + 1 ≤ 0) := by omega
  by_cases hi : (string_split l0 (str " ")).length = 3
  swap
  · simp [on_handle_http_request, hf, hl, hi]
  rcases hc : headers_find (rest.foldl parse_header_line s.headers_) (str "connection")
    with _ | c
  · simp [on_handle_http_request, hf, hl, hi, hpos, hc]
  by_cases hcu : string2lower c = str "upgrade"
  swap
  · simp [on_handle_http_request, hf, hl, hi, hpos, hc, hcu]
  rcases hu : headers_find (rest.foldl parse_header_line s.headers_) (str "upgrade")
    with _ | u
  · simp [on_handle_http_request, hf, hl, hi, hpos, hc, hcu, hu, headers_find_set, e1]
  by_cases huw : string2lower u = str "websocket"
  swap
  · simp [on_handle_http_request, hf, hl, hi, hpos, hc, hcu, hu, huw, headers_find_set, e1]
  rcases hv : headers_find (rest.foldl parse_header_line s.headers_)
    (str "sec-websocket-version") with _ | v <;>
  rcases hk : headers_find (rest.foldl parse_header_line s.headers_)
    (str "sec-websocket-key") with _ | k <;>
  simp [on_handle_http_request, hf, hl, hi, hpos, hc, hcu, hu, huw, hv, hk, hp,
    headers_find_set, e1, e2, e3, e4, e5, e6, e7]

/-- C12 on a valid request with the header line `Sec-WebSocket-Protocol: chat`: the
request is accepted and the header is stored under `sec-websocket-protocol`, but the
sub-protocol field stays empty.  The lookup uses the key `sec-webSocket-protocol`,
which no lower-cased key equals: the call leaves the field as it was on every session
whose header map does not already hold that mixed-case key. -/
theorem protocol_not_captured :
    (on_handle_http_request request_with_protocol).2 = .ok WS_RET_OK
    ∧ headers_find (on_handle_http_request request_with_protocol).1.headers_
        (str "sec-websocket-protocol") = some (str "chat")
    ∧ (on_handle_http_request request_with_protocol).1.sec_ws_protocol_ = []
    ∧ (on_handle_http_request request_with_protocol).1.sec_ws_protocol_ ≠ str "chat"
    ∧ (∀ s : Session, headers_find s.headers_ (str "sec-webSocket-protocol") = none →
        (on_handle_http_request s).1.sec_ws_protocol_ = s.sec_ws_protocol_) := by
  refine ⟨rfl, by decide, by decide, by decide, on_handle_http_request_protocol⟩

/-! ### Failed reads, empty close payloads, split handshakes -/

/-- C18: a read completion with a status other than 0 leaves the session exactly as it
was: no buffer grows, no parser runs, nothing is written and no callback is invoked. -/
theorem on_read_failed_status (s : Session) (ret_code : Int) (data : Bytes)
    (h : ret_code ≠ 0) : on_read s ret_code data = s := by
  simp [on_read, h]

/-- C18 on a fresh session and a complete request delivered with status -1. -/
theorem on_read_failed_status_witness :
    on_read (websocket_session true []) (-1) (str "GET /chat HTTP/1.1\r\n\r\n")
      = websocket_session true [] :=
  on_read_failed_status _ (-1) _ (by decide)

/-- C19: on a session that is not closed, a close payload of length 0 is handled as a
one-byte payload is: one close frame carrying the incomplete-code reason is sent, not
an empty echo; the session is then marked closed, `on_close` is invoked once and the
transport is closed. -/
theorem handle_ws_close_empty (s : Session) (hc : s.close_ = false) :
    (handle_ws_close s []).trace
      = s.trace ++ [Effect.async_write [0x88, 21],
                    Effect.async_write (str "Incomplete close code"),
                    Effect.on_close, Effect.close]
    ∧ (handle_ws_close s []).close_ = true
    ∧ (∀ d : Nat, handle_ws_close s [] = handle_ws_close s [d])
    ∧ (handle_ws_close s []).trace.count Effect.on_close
        = s.trace.count Effect.on_close + 1 := by
  have h0 : handle_ws_close s []
      = { s with die_count_ := 0, close_ := true,
                 trace := s.trace ++ [Effect.async_write [0x88, 21],
                   Effect.async_write (str "Incomplete close code"),
                   Effect.on_close, Effect.close] } := by
    simp [handle_ws_close, hc, send_close_incomplete]
  refine ⟨by rw [h0], by rw [h0], ?_, ?_⟩
  · intro d
    simp [handle_ws_close, hc]
  · rw [h0]
    simp [List.count_append, List.count_cons]

/-- C19 on a fresh session. -/
theorem handle_ws_close_empty_witness :
    (handle_ws_close (websocket_session true []) []).trace
      = (websocket_session true []).trace ++ [Effect.async_write [0x88, 21],
          Effect.async_write (str "Incomplete close code"),
          Effect.on_close, Effect.close] :=
  (handle_ws_close_empty (websocket_session true []) rfl).1

theorem on_handle_http_request_trace (s : Session) (t : List Effect) :
    on_handle_http_request { s with trace := t }
      = ({ (on_handle_http_request s).1 with trace := t }, (on_handle_http_request s).2) := by
  have e1 : (str "upgrade" = str "connection") = False := by decide
  have e2 : (str "sec-websocket-key" = str "connection") = False := by decide
  have e3 : (str "sec-websocket-key" = str "upgrade") = False := by decide
  have e4 : (str "sec-websocket-version" = str "connection") = False := by decide
  have e5 : (str "sec-websocket-version" = str "upgrade") = False := by decide
  have e6 : (str "sec-webSocket-protocol" = str "connection") = False := by decide
  have e7 : (str "sec-webSocket-protocol" = str "upgrade") = False := by decide
  rcases hf : find s.http_recv_buffer_ (str "\r\n\r\n") with _ | pos
  · simp [on_handle_http_request, hf]
  rcases hl : string_split (s.http_recv_buffer_.take pos) (str "\r\n") with _ | ⟨l0, rest⟩
  · simp [on_handle_http_request, hf, hl]
  have hpos : ¬ ((rest.length : Int) + 1 ≤ 0) := by omega
  by_cases hi : (string_split l0 (str " ")).length = 3
  swap
  · simp [on_handle_http_request, hf, hl, hi]
  rcases hc : headers_find (rest.foldl parse_header_line s.headers_) (str "connection")
    with _ | c
  · simp [on_handle_http_request, hf, hl, hi, hpos, hc]
  by_cases hcu : string2lower c = str "upgrade"
  swap
  · simp [on_handle_http_request, hf, hl, hi, hpos, hc, hcu]
  rcases hu : headers_find (rest.foldl parse_header_line s.headers_) (str "upgrade")
    with _ | u
  · simp [on_handle_http_request, hf, hl, hi, hpos, hc, hcu, hu, headers_find_set, e1]
  by_cases huw : string2lower u = str "websocket"
  swap
  · simp [on_handle_http_request, hf, hl, hi, hpos, hc, hcu, hu, huw, headers_find_set, e1]
  rcases hv : headers_find (rest.foldl parse_header_line s.headers_)
    (str "sec-websocket-version") with _ | v <;>
  rcases hk : headers_find (rest.foldl parse_header_line s.headers_)
    (str "sec-websocket-key") with _ | k <;>
  rcases hp : headers_find (rest.foldl parse_header_line s.headers_)
    (str "sec-webSocket-protocol") with _ | pr <;>
  simp [on_handle_http_request, hf, hl, hi, hpos, hc, hcu, hu, huw, hv, hk, hp,
    headers_find_set, e1, e2, e3, e4, e5, e6, e7]

theorem on_read_split_eq (s : Session) (a b : Bytes)
    (h : s.http_request_ready_ = false) (hbuf : s.http_recv_buffer_ = [])
    (ha : ¬ str "\r\n\r\n" <:+: a) :
    on_read s 0 a = async_read { s with http_recv_buffer_ := a }
    ∧ (on_handle_http_request
          { on_read s 0 a with
            http_recv_buffer_ := (on_read s 0 a).http_recv_buffer_ ++ b }).2
        = (on_handle_http_request { s with http_recv_buffer_ := a ++ b }).2
    ∧ ∃ tail : List Effect,
        (on_read s 0 (a ++ b)).trace = s.trace ++ tail
        ∧ on_read (on_read s 0 a) 0 b
            = { on_read s 0 (a ++ b) with
                trace := s.trace ++ [Effect.async_read] ++ tail } := by
  have hf := (find_eq_none_iff a (str "\r\n\r\n")).mpr ha
  have hra : on_handle_http_request
      { s with http_recv_buffer_ := s.http_recv_buffer_ ++ a }
      = ({ s with http_recv_buffer_ := s.http_recv_buffer_ ++ a }, .ok WS_RET_READ_MORE) := by
    simp [on_handle_http_request, hbuf, hf]
  have h1 : on_read s 0 a = async_read { s with http_recv_buffer_ := a } := by
    rw [on_read_ok s a h _ _ hra]
    simp [hbuf]
  have hsa : (async_read { s with http_recv_buffer_ := a }).http_request_ready_ = false := h
  have hS : ({ async_read { s with http_recv_buffer_ := a } with
        http_recv_buffer_ :=
          (async_read { s with http_recv_buffer_ := a }).http_recv_buffer_ ++ b } : Session)
      = { ({ s with http_recv_buffer_ := a ++ b } : Session) with
          trace := s.trace ++ [Effect.async_read] } := rfl
  have hS0 : ({ s with http_recv_buffer_ := s.http_recv_buffer_ ++ (a ++ b) } : Session)
      = { s with http_recv_buffer_ := a ++ b } := by
    rw [hbuf]; rfl
  obtain ⟨ht, hb, hsv, -⟩ :=
    on_handle_http_request_frame { s with http_recv_buffer_ := a ++ b }
  rw [h1]
  refine ⟨rfl, ?_, ?_⟩
  · rw [hS, on_handle_http_request_trace]
  rcases hX : on_handle_http_request { s with http_recv_buffer_ := a ++ b } with ⟨s2, r⟩
  rw [hX] at ht hb hsv
  simp only at ht hb hsv
  have hX0 : on_handle_http_request
      { s with http_recv_buffer_ := s.http_recv_buffer_ ++ (a ++ b) } = (s2, r) := by
    rw [hS0, hX]
  have hX1 : on_handle_http_request
      { async_read { s with http_recv_buffer_ := a } with
        http_recv_buffer_ :=
          (async_read { s with http_recv_buffer_ := a }).http_recv_buffer_ ++ b }
      = ({ s2 with trace := s.trace ++ [Effect.async_read] }, r) := by
    rw [hS, on_handle_http_request_trace, hX]
  cases r with
  | error why =>
    rw [on_read_error s (a ++ b) h s2 why hX0, on_read_error _ b hsa _ why hX1]
    by_cases hserver : s2.server_ = true
    · refine ⟨[Effect.async_write (str "HTTP/1.1 400 Bad Request\r\n\r\n"),
        Effect.session_close], ?_, ?_⟩ <;>
      simp [hserver, send_error_response, async_write, session_close, ht]
    · refine ⟨[Effect.async_write (str "HTTP/1.1 400 Bad Request\r\n\r\n")], ?_, ?_⟩ <;>
      simp [hserver, send_error_response, async_write, session_close, ht]
  | ok ret =>
    rw [on_read_ok s (a ++ b) h s2 ret hX0, on_read_ok _ b hsa _ ret hX1]
    by_cases hm : ret = WS_RET_READ_MORE
    · refine ⟨[Effect.async_read], ?_, ?_⟩ <;> simp [hm, async_read, ht]
    by_cases hok : ret = WS_RET_OK
    · have hne : ¬ WS_RET_OK = WS_RET_READ_MORE := by decide
      subst hok
      refine ⟨[Effect.async_write
          (str ("HTTP/1.1 101 Switching Protocols\r\nUpgrade: websocket\r\n"
              ++ "Connection: Upgrade\r\nSec-WebSocket-Accept: ")
            ++ (gen_hashcode s2).hash_code_ ++ str "\r\n\r\n"), Effect.async_read], ?_, ?_⟩ <;>
      simp [hne, async_read, send_http_response_eq, gen_hashcode, ht]
    by_cases hserver : s2.server_ = true
    · refine ⟨[Effect.async_write (str "HTTP/1.1 400 Bad Request\r\n\r\n"),
        Effect.session_close], ?_, ?_⟩ <;>
      simp [hm, hok, hserver, send_error_response, async_write, session_close, ht]
    · refine ⟨[Effect.async_write (str "HTTP/1.1 400 Bad Request\r\n\r\n")], ?_, ?_⟩ <;>
      simp [hm, hok, hserver, send_error_response, async_write, session_close, ht]
/-- C20: on a session that awaits the handshake with an empty buffer, delivering `a` and
then `b`, where `a` does not contain `\r\n\r\n`, ends in the same session as delivering
`a ++ b` in one read, except that the trace holds one more armed read, right after `a`:
the parser decides alike, the method, path, header map, key, version and accept value
are the same, and the same bytes are written. -/
theorem on_read_split (s : Session) (a b : Bytes)
    (h : s.http_request_ready_ = false) (hbuf : s.http_recv_buffer_ = [])
    (ha : ¬ str "\r\n\r\n" <:+: a) :
    (on_handle_http_request
          { on_read s 0 a with
            http_recv_buffer_ := (on_read s 0 a).http_recv_buffer_ ++ b }).2
        = (on_handle_http_request { s with http_recv_buffer_ := a ++ b }).2
    ∧ (∃ tail : List Effect,
        (on_read s 0 (a ++ b)).trace = s.trace ++ tail
        ∧ (on_read (on_read s 0 a) 0 b).trace = s.trace ++ [Effect.async_read] ++ tail
        ∧ on_read (on_read s 0 a) 0 b
            = { on_read s 0 (a ++ b) with
                trace := s.trace ++ [Effect.async_read] ++ tail })
    ∧ (on_read (on_read s 0 a) 0 b).method_ = (on_read s 0 (a ++ b)).method_
    ∧ (on_read (on_read s 0 a) 0 b).path_ = (on_read s 0 (a ++ b)).path_
    ∧ (on_read (on_read s 0 a) 0 b).headers_ = (on_read s 0 (a ++ b)).headers_
    ∧ (on_read (on_read s 0 a) 0 b).sec_ws_key_ = (on_read s 0 (a ++ b)).sec_ws_key_
    ∧ (on_read (on_read s 0 a) 0 b).sec_ws_ver_ = (on_read s 0 (a ++ b)).sec_ws_ver_
    ∧ (on_read (on_read s 0 a) 0 b).hash_code_ = (on_read s 0 (a ++ b)).hash_code_
    ∧ (on_read (on_read s 0 a) 0 b).http_request_ready_
        = (on_read s 0 (a ++ b)).http_request_ready_ := by
  obtain ⟨_, hdec, tail, ht, he⟩ := on_read_split_eq s a b h hbuf ha
  refine ⟨hdec, ⟨tail, ht, by rw [he], he⟩, ?_, ?_, ?_, ?_, ?_, ?_, ?_⟩ <;> rw [he]

/-- C20 on a fresh session, with the minimal valid request cut inside its `Connection`
header line. -/
theorem on_read_split_witness :
    (on_read (on_read (websocket_session true []) 0 (str "GET /chat HTTP/1.1\r\nConn")) 0
        (str ("ection: Upgrade\r\nUpgrade: websocket\r\n"
          ++ "Sec-WebSocket-Key: dGhlIHNhbXBsZSBub25jZQ==\r\n\r\n"))).headers_
      = (on_read (websocket_session true []) 0
          (str "GET /chat HTTP/1.1\r\nConn"
            ++ str ("ection: Upgrade\r\nUpgrade: websocket\r\n"
              ++ "Sec-WebSocket-Key: dGhlIHNhbXBsZSBub25jZQ==\r\n\r\n"))).headers_ :=
  (on_read_split (websocket_session true []) (str "GET /chat HTTP/1.1\r\nConn")
    (str ("ection: Upgrade\r\nUpgrade: websocket\r\n"
      ++ "Sec-WebSocket-Key: dGhlIHNhbXBsZSBub25jZQ==\r\n\r\n"))
    rfl rfl (by decide)).2.2.2.2.1

/-! ### Frames: decoding, dispatch, encoding -/

theorem parse_pending (f : websocket_frame) (data : Bytes)
    (hr : f.header_ready_ = false)
    (h : ((rested_frame false 0 []).parse (f.buffer_ ++ data)).1.header_ready_ = true) :
    f.parse data = (rested_frame false 0 []).parse (f.buffer_ ++ data) := by
  unfold websocket_frame.parse at h ⊢
  simp only [rested_frame, hr, List.nil_append, Bool.false_eq_true, if_false] at h ⊢
  generalize f.buffer_ ++ data = x at h ⊢
  by_cases h2 : x.length < 2
  · rw [if_pos h2] at h; simp at h
  rw [if_neg h2] at h
  rw [if_neg h2, if_neg h2]
  by_cases hrsv : x.getD 0 0 / 16 % 8 ≠ 0
  · rw [if_pos hrsv] at h; simp at h
  rw [if_neg hrsv] at h
  rw [if_neg hrsv, if_neg hrsv]
  by_cases hop : ¬ (x.getD 0 0 % 16 = 0x0 ∨ x.getD 0 0 % 16 = 0x1 ∨ x.getD 0 0 % 16 = 0x2
      ∨ x.getD 0 0 % 16 = 0x8 ∨ x.getD 0 0 % 16 = 0x9 ∨ x.getD 0 0 % 16 = 0xA)
  · rw [if_pos hop] at h; simp at h
  rw [if_neg hop] at h
  rw [if_neg hop, if_neg hop]
  generalize hext : (if x.getD 1 0 % 128 = 126 then 2
    else if x.getD 1 0 % 128 = 127 then 8 else 0) = ext at h ⊢
  by_cases hs : x.length < 2 + ext + (if x.getD 1 0 / 128 % 2 = 1 then 4 else 0)
  · rw [if_pos hs] at h; simp at h
  rw [if_neg hs, if_neg hs]

theorem unmask_length (key : Bytes) (i : Nat) (l : Bytes) :
    (unmask key i l).length = l.length := by
  induction l generalizing i with
  | nil => rfl
  | cons b bs ih => simp [unmask, ih]

theorem get_payload_data_length (f : websocket_frame) :
    f.get_payload_data.length ≤ f.payload_len_ := by
  unfold websocket_frame.get_payload_data
  simp only []
  split_ifs
  · rw [unmask_length]; exact List.length_take_le _ _
  · exact List.length_take_le _ _

theorem parse_buffer (data : Bytes)
    (h : ((rested_frame false 0 []).parse data).1.header_ready_ = true) :
    ((rested_frame false 0 []).parse data).1.buffer_ = data := by
  unfold websocket_frame.parse at h ⊢
  simp only [rested_frame, List.nil_append, Bool.false_eq_true, if_false] at h ⊢
  by_cases h2 : data.length < 2
  · rw [if_pos h2] at h; simp at h
  rw [if_neg h2] at h
  rw [if_neg h2]
  by_cases hrsv : data.getD 0 0 / 16 % 8 ≠ 0
  · rw [if_pos hrsv] at h; simp at h
  rw [if_neg hrsv] at h
  rw [if_neg hrsv]
  by_cases hop : ¬ (data.getD 0 0 % 16 = 0x0 ∨ data.getD 0 0 % 16 = 0x1
      ∨ data.getD 0 0 % 16 = 0x2 ∨ data.getD 0 0 % 16 = 0x8 ∨ data.getD 0 0 % 16 = 0x9
      ∨ data.getD 0 0 % 16 = 0xA)
  · rw [if_pos hop] at h; simp at h
  rw [if_neg hop]
  split_ifs <;> rfl

theorem decode_frame_some (bytes : Bytes) (d : Bool × Nat × Bytes)
    (h : decode_frame bytes = some d) :
    ((rested_frame false 0 []).parse bytes).2 = 0
    ∧ ((rested_frame false 0 []).parse bytes).1.payload_is_ready = true
    ∧ ((rested_frame false 0 []).parse bytes).1.header_ready_ = true
    ∧ ((rested_frame false 0 []).parse bytes).1.buffer_ = bytes
    ∧ ((rested_frame false 0 []).parse bytes).1.payload_start_
        + ((rested_frame false 0 []).parse bytes).1.payload_len_ = bytes.length
    ∧ ((rested_frame false 0 []).parse bytes).1.fin_ = d.1
    ∧ ((rested_frame false 0 []).parse bytes).1.opcode_ = d.2.1
    ∧ ((rested_frame false 0 []).parse bytes).1.get_payload_data = d.2.2 := by
  unfold decode_frame at h
  simp only [] at h
  split_ifs at h with hc
  obtain ⟨h2, hready, hlen⟩ := hc
  simp only [Option.some.injEq] at h
  have hhr : ((rested_frame false 0 []).parse bytes).1.header_ready_ = true := by
    unfold websocket_frame.payload_is_ready at hready
    simp only [Bool.and_eq_true] at hready
    exact hready.1
  subst h
  exact ⟨h2, hready, hhr, parse_buffer bytes hhr, hlen, rfl, rfl, rfl⟩

theorem decode_frame_payload_len (bytes : Bytes) (d : Bool × Nat × Bytes)
    (h : decode_frame bytes = some d) :
    ((rested_frame false 0 []).parse bytes).1.get_payload_len = d.2.2.length := by
  obtain ⟨_, _, _, hbuf, hlen, _, _, hp⟩ := decode_frame_some bytes d h
  rw [← hp]
  unfold websocket_frame.get_payload_data websocket_frame.get_payload_len
  simp only []
  split_ifs
  · rw [unmask_length, List.length_take, List.length_drop, hbuf]
    omega
  · rw [List.length_take, List.length_drop, hbuf]
    omega

theorem decode_frame_length (bytes : Bytes) (d : Bool × Nat × Bytes)
    (h : decode_frame bytes = some d) : 2 ≤ bytes.length := by
  obtain ⟨_, _, hhr, _⟩ := decode_frame_some bytes d h
  unfold websocket_frame.parse at hhr
  simp only [rested_frame, List.nil_append, Bool.false_eq_true, if_false] at hhr
  by_cases h2 : bytes.length < 2
  · rw [if_pos h2] at hhr; simp at hhr
  · omega
theorem take_drop_append (b rest : Bytes) (k m : Nat) (h : k + m ≤ b.length) :
    ((b ++ rest).drop k).take m = (b.drop k).take m := by
  rw [List.drop_append_of_le_length (by omega), List.take_append_of_le_length]
  simp only [List.length_drop]
  omega

theorem parse_append (b rest : Bytes)
    (h : ((rested_frame false 0 []).parse b).1.header_ready_ = true) :
    (rested_frame false 0 []).parse (b ++ rest)
      = ({ ((rested_frame false 0 []).parse b).1 with buffer_ := b ++ rest }, 0) := by
  unfold websocket_frame.parse at h ⊢
  simp only [rested_frame, List.nil_append, Bool.false_eq_true, if_false] at h ⊢
  by_cases h2 : b.length < 2
  · rw [if_pos h2] at h; simp at h
  have h2' : ¬ (b ++ rest).length < 2 := by simp only [List.length_append]; omega
  have g0 : (b ++ rest).getD 0 0 = b.getD 0 0 := List.getD_append _ _ _ _ (by omega)
  have g1 : (b ++ rest).getD 1 0 = b.getD 1 0 := List.getD_append _ _ _ _ (by omega)
  rw [if_neg h2] at h
  rw [if_neg h2', if_neg h2]
  simp only [g0, g1]
  by_cases hrsv : b.getD 0 0 / 16 % 8 ≠ 0
  · rw [if_pos hrsv] at h; simp at h
  rw [if_neg hrsv] at h
  rw [if_neg hrsv, if_neg hrsv]
  by_cases hop : ¬ (b.getD 0 0 % 16 = 0x0 ∨ b.getD 0 0 % 16 = 0x1 ∨ b.getD 0 0 % 16 = 0x2
      ∨ b.getD 0 0 % 16 = 0x8 ∨ b.getD 0 0 % 16 = 0x9 ∨ b.getD 0 0 % 16 = 0xA)
  · rw [if_pos hop] at h; simp at h
  rw [if_neg hop] at h
  rw [if_neg hop, if_neg hop]
  generalize hext : (if b.getD 1 0 % 128 = 126 then 2
    else if b.getD 1 0 % 128 = 127 then 8 else 0) = ext at h ⊢
  by_cases hs : b.length < 2 + ext + (if b.getD 1 0 / 128 % 2 = 1 then 4 else 0)
  · rw [if_pos hs] at h; simp at h
  have hs' : ¬ (b ++ rest).length < 2 + ext + (if b.getD 1 0 / 128 % 2 = 1 then 4 else 0) := by
    simp only [List.length_append]; omega
  rw [if_neg hs', if_neg hs]
  have he : List.take ext (List.drop 2 (b ++ rest)) = List.take ext (List.drop 2 b) :=
    take_drop_append b rest 2 ext (by omega)
  rw [he]
  by_cases hm : b.getD 1 0 / 128 % 2 = 1
  · have hk : List.take 4 (List.drop (2 + ext) (b ++ rest))
        = List.take 4 (List.drop (2 + ext) b) :=
      take_drop_append b rest (2 + ext) 4 (by rw [if_pos hm] at hs; omega)
    rw [hk]
  · simp only [hm, if_false]
theorem foldl_frame {α : Type} (f : Session → α → Session)
    (hf : ∀ s a, (f s a).frame_ = s.frame_) (l : List α) (s : Session) :
    (l.foldl f s).frame_ = s.frame_ := by
  induction l generalizing s with
  | nil => rfl
  | cons a as ih => rw [List.foldl_cons, ih, hf]

theorem send_ws_frame_frame (s : Session) (data : Bytes) (op : Nat) :
    (send_ws_frame s data op).frame_ = s.frame_ := by
  obtain ⟨header, he, _⟩ := send_ws_frame_eq s data op
  rw [he]

theorem handle_ws_close_frame (s : Session) (data : Bytes) :
    (handle_ws_close s data).frame_ = s.frame_ := by
  by_cases hc : s.close_ = true
  · rw [handle_ws_close_closed s data hc]
  · obtain ⟨header, payload, he⟩ := handle_ws_close_open s data (by simpa using hc)
    rw [he]

theorem on_handle_frame_dispatch_frame (s : Session) :
    (on_handle_frame_dispatch s).frame_ = s.frame_ := by
  unfold on_handle_frame_dispatch handle_ws_ping
  split_ifs
  · exact foldl_frame _ (fun t a => send_ws_frame_frame t a _) _ _
  · rfl
  · exact foldl_frame _ handle_ws_close_frame _ _
  · exact foldl_frame handle_ws_bin (fun _ _ => rfl) _ _
  · exact foldl_frame handle_ws_text (fun _ _ => rfl) _ _
  · exact foldl_frame handle_ws_bin (fun _ _ => rfl) _ _
  · rfl


theorem on_handle_frame_body_frame (s : Session) (data : Bytes) (i : Nat)
    (b rest : Bytes) (d : Bool × Nat × Bytes)
    (hr : s.frame_.header_ready_ = false)
    (hbuf : s.frame_.buffer_ ++ (if i = 0 then data else []) = b ++ rest)
    (hd : decode_frame b = some d) :
    on_handle_frame_body s data i = (frame_step s rest d, decide (rest.length > 0)) := by
  obtain ⟨h2, hready, hhr, hb, hlen, hfin, hop, hp⟩ := decode_frame_some b d hd
  have happ := parse_append b rest hhr
  have hparse : (if i = 0 then s.frame_.parse data else s.frame_.parse [])
      = ({ ((rested_frame false 0 []).parse b).1 with buffer_ := b ++ rest }, 0) := by
    have e : (if i = 0 then s.frame_.parse data else s.frame_.parse [])
        = s.frame_.parse (if i = 0 then data else []) := by split_ifs <;> rfl
    rw [e, parse_pending s.frame_ _ hr (by rw [hbuf, happ]; exact hhr), hbuf, happ]
  generalize ((rested_frame false 0 []).parse b).1 = g at *
  have hdata : ({ g with buffer_ := b ++ rest } : websocket_frame).get_payload_data
      = g.get_payload_data := by
    unfold websocket_frame.get_payload_data
    simp only [hb]
    rw [take_drop_append b rest _ _ (by omega)]
  have htake : List.take g.payload_len_ d.2.2 = d.2.2 := by
    rw [← hp]
    exact List.take_of_length_le (get_payload_data_length _)
  have hcr : (({ g with buffer_ := b ++ rest } : websocket_frame).consume
      (g.payload_start_ + g.payload_len_)).reset = rested_frame d.1 d.2.1 rest := by
    simp [websocket_frame.consume, websocket_frame.reset, rested_frame, hlen, hfin, hop]
  have hready' : ({ g with buffer_ := b ++ rest } : websocket_frame).payload_is_ready
      = true := by
    simp only [websocket_frame.payload_is_ready, hhr, Bool.true_and, decide_eq_true_eq,
      List.length_append]
    omega
  unfold on_handle_frame_body
  simp only [hparse, ne_eq, not_true_eq_false, if_false, hready', Bool.not_true,
    Bool.false_eq_true, websocket_frame.get_payload_len, websocket_frame.get_payload_start,
    hdata, hp, htake, hcr, websocket_frame.get_fin, websocket_frame.get_buffer_len]
  unfold frame_step
  cases hd1 : d.1 with
  | false => simp [rested_frame]
  | true => simp [on_handle_frame_dispatch_frame, rested_frame]

theorem frame_step_frame (s : Session) (rest : Bytes) (d : Bool × Nat × Bytes) :
    (frame_step s rest d).frame_ = rested_frame d.1 d.2.1 rest := by
  unfold frame_step
  cases hd1 : d.1 with
  | false => simp
  | true => simp [on_handle_frame_dispatch_frame]

theorem flatten_length_frames (bs : List Bytes)
    (hdec : ∀ b ∈ bs, (decode_frame b).isSome = true) :
    2 * bs.length ≤ bs.flatten.length := by
  induction bs with
  | nil => simp
  | cons b bs ih =>
    have hb := hdec b (by simp)
    obtain ⟨d, hd⟩ := Option.isSome_iff_exists.mp hb
    have h2 := decode_frame_length b d hd
    have := ih (fun c hc => hdec c (by simp [hc]))
    simp only [List.flatten_cons, List.length_append, List.length_cons]
    omega

theorem on_handle_frame_loop_frames (bs : List Bytes) :
    ∀ (fuel : Nat) (s : Session) (data : Bytes) (i : Nat),
      bs ≠ [] → bs.length ≤ fuel →
      (∀ b ∈ bs, (decode_frame b).isSome = true) →
      s.frame_.header_ready_ = false →
      s.frame_.buffer_ ++ (if i = 0 then data else []) = bs.flatten →
      on_handle_frame_loop fuel s data i = feed_frames s bs := by
  induction bs with
  | nil => intro _ _ _ _ h; exact absurd rfl h
  | cons b bs ih =>
    intro fuel s data i _ hfuel hdec hr hbuf
    obtain ⟨d, hd⟩ := Option.isSome_iff_exists.mp (hdec b (by simp))
    have hdec' : ∀ c ∈ bs, (decode_frame c).isSome = true :=
      fun c hc => hdec c (by simp [hc])
    cases fuel with
    | zero => simp at hfuel
    | succ fuel =>
      rw [List.flatten_cons] at hbuf
      have hbody := on_handle_frame_body_frame s data i b bs.flatten d hr hbuf hd
      unfold on_handle_frame_loop
      simp only [hbody]
      unfold feed_frames
      simp only [hd]
      cases bs with
      | nil => simp [feed_frames]
      | cons c cs =>
        have hlen := flatten_length_frames (c :: cs) hdec'
        have hpos : (c :: cs).flatten.length > 0 := by
          simp only [List.length_cons] at hlen; omega
        simp only [hpos, decide_True, if_true]
        apply ih fuel _ data (i + 1) (by simp) (by simpa using hfuel) hdec'
        · rw [frame_step_frame]; rfl
        · rw [frame_step_frame]; simp [rested_frame]

theorem on_handle_frame_frames (s : Session) (bs : List Bytes)
    (hb : s.frame_.buffer_ = []) (hr : s.frame_.header_ready_ = false)
    (hdec : ∀ b ∈ bs, (decode_frame b).isSome = true) :
    on_handle_frame s bs.flatten = feed_frames s bs := by
  cases bs with
  | nil =>
    unfold on_handle_frame on_handle_frame_loop on_handle_frame_body
    simp [hb, hr, websocket_frame.parse, websocket_frame.payload_is_ready, feed_frames]
    rw [← hb, ← hr]
  | cons c cs =>
    unfold on_handle_frame
    apply on_handle_frame_loop_frames (c :: cs) _ s _ 0 (by simp) _ hdec hr (by simp [hb])
    have := flatten_length_frames (c :: cs) hdec
    omega

theorem foldl_handle_ws_text (l : List Bytes) (s : Session) :
    l.foldl handle_ws_text s = { s with trace := s.trace ++ l.map Effect.on_read } := by
  induction l generalizing s with
  | nil => simp
  | cons a as ih => simp [List.foldl_cons, ih, handle_ws_text]

theorem foldl_handle_ws_bin (l : List Bytes) (s : Session) :
    l.foldl handle_ws_bin s = { s with trace := s.trace ++ l.map Effect.on_read } := by
  induction l generalizing s with
  | nil => simp
  | cons a as ih => simp [List.foldl_cons, ih, handle_ws_bin]

theorem frame_step_fragment (s : Session) (rest : Bytes) (op : Nat) (p : Bytes) :
    frame_step s rest (false, op, p)
      = { s with frame_ := rested_frame false op rest,
                 recv_buffer_vec_ := s.recv_buffer_vec_ ++ [p] } := by
  simp [frame_step]

theorem frame_step_data (s : Session) (rest : Bytes) (op : Nat) (p : Bytes)
    (hop : op = WS_OP_TEXT_TYPE ∨ op = WS_OP_BIN_TYPE ∨ op = WS_OP_CONTINUE_TYPE) :
    frame_step s rest (true, op, p)
      = { s with frame_ := rested_frame true op rest,
                 recv_buffer_vec_ := [],
                 die_count_ := 0,
                 trace := s.trace ++ (s.recv_buffer_vec_ ++ [p]).map Effect.on_read } := by
  rcases hop with h | h | h <;> subst h <;>
    simp [frame_step, on_handle_frame_dispatch, websocket_frame.get_oper_code, rested_frame,
      WS_OP_TEXT_TYPE, WS_OP_BIN_TYPE, WS_OP_CONTINUE_TYPE, WS_OP_PING_TYPE, WS_OP_PONG_TYPE,
      WS_OP_CLOSE_TYPE, foldl_handle_ws_text, foldl_handle_ws_bin, handle_ws_text,
      handle_ws_bin]

theorem feed_frames_fragments (fps : List (Bytes × Bytes)) :
    ∀ s : Session,
      (∀ fp ∈ fps, (decode_frame fp.1).map (fun d => (d.1, d.2.2)) = some (false, fp.2)) →
      ∃ F : websocket_frame,
        feed_frames s (fps.map Prod.fst)
          = { s with frame_ := F,
                     recv_buffer_vec_ := s.recv_buffer_vec_ ++ fps.map Prod.snd }
        ∧ (F.buffer_ = [] ∧ F.header_ready_ = false
            ∨ fps = [] ∧ F = s.frame_) := by
  induction fps with
  | nil => intro s _; exact ⟨s.frame_, by simp [feed_frames], Or.inr ⟨rfl, rfl⟩⟩
  | cons fp fps ih =>
    intro s h
    have hfp := h fp (by simp)
    rcases hd : decode_frame fp.1 with _ | ⟨fin, op, p⟩
    · simp [hd] at hfp
    simp only [hd, Option.map_some', Option.some.injEq, Prod.mk.injEq] at hfp
    obtain ⟨hfin, hp⟩ := hfp
    subst hfin hp
    obtain ⟨F, hF, hrest⟩ := ih (frame_step s (fps.map Prod.fst).flatten (false, op, fp.2))
      (fun c hc => h c (by simp [hc]))
    rw [frame_step_fragment] at hF
    refine ⟨F, ?_, ?_⟩
    · simp only [List.map_cons, feed_frames, hd, frame_step_fragment]
      rw [hF]
      simp
    · rcases hrest with hr | ⟨hnil, hF'⟩
      · exact Or.inl hr
      · subst hnil
        rw [frame_step_fragment] at hF'
        subst hF'
        exact Or.inl ⟨rfl, rfl⟩

theorem feed_frames_final (fps : List (Bytes × Bytes)) (last : Bytes) (op : Nat)
    (payload : Bytes) (hlast : decode_frame last = some (true, op, payload))
    (hop : op = WS_OP_TEXT_TYPE ∨ op = WS_OP_BIN_TYPE ∨ op = WS_OP_CONTINUE_TYPE) :
    ∀ s : Session,
      (∀ fp ∈ fps, (decode_frame fp.1).map (fun d => (d.1, d.2.2)) = some (false, fp.2)) →
      feed_frames s (fps.map Prod.fst ++ [last])
        = { s with frame_ := rested_frame true op [],
                   recv_buffer_vec_ := [],
                   die_count_ := 0,
                   trace := s.trace
                     ++ (s.recv_buffer_vec_ ++ fps.map Prod.snd ++ [payload]).map
                          Effect.on_read } := by
  induction fps with
  | nil =>
    intro s _
    simp [feed_frames, hlast, frame_step_data s [] op payload hop]
  | cons fp fps ih =>
    intro s h
    have hfp := h fp (by simp)
    rcases hd : decode_frame fp.1 with _ | ⟨fin, op', p⟩
    · simp [hd] at hfp
    simp only [hd, Option.map_some', Option.some.injEq, Prod.mk.injEq] at hfp
    obtain ⟨hfin, hp⟩ := hfp
    subst hfin hp
    have e : (fp :: fps).map Prod.fst ++ [last] = fp.1 :: (fps.map Prod.fst ++ [last]) := rfl
    rw [e]
    simp only [feed_frames, hd, frame_step_fragment]
    rw [ih _ (fun c hc => h c (by simp [hc]))]
    simp

theorem decode_isSome_of_map (l : List (Bytes × Bytes)) (fin : Bool)
    (h : ∀ fp ∈ l, (decode_frame fp.1).map (fun d => (d.1, d.2.2)) = some (fin, fp.2)) :
    ∀ b ∈ l.map Prod.fst, (decode_frame b).isSome = true := by
  intro b hb
  obtain ⟨fp, hfp, rfl⟩ := List.mem_map.mp hb
  have := h fp hfp
  cases hd : decode_frame fp.1 with
  | none => simp [hd] at this
  | some d => rfl

theorem feed_groups (groups : List (List (Bytes × Bytes))) :
    ∀ s : Session, s.frame_.buffer_ = [] → s.frame_.header_ready_ = false →
      (∀ fp ∈ groups.flatten,
        (decode_frame fp.1).map (fun d => (d.1, d.2.2)) = some (false, fp.2)) →
      ∃ F : websocket_frame, F.buffer_ = [] ∧ F.header_ready_ = false
        ∧ (groups.map (fun g => (g.map Prod.fst).flatten)).foldl on_handle_frame s
          = { s with frame_ := F,
                     recv_buffer_vec_ := s.recv_buffer_vec_ ++ groups.flatten.map Prod.snd } := by
  induction groups with
  | nil => intro s hb hr _; exact ⟨s.frame_, hb, hr, by simp⟩
  | cons g gs ih =>
    intro s hb hr h
    have hg : ∀ fp ∈ g, (decode_frame fp.1).map (fun d => (d.1, d.2.2)) = some (false, fp.2) :=
      fun fp hfp => h fp (by simp [hfp])
    have hgs : ∀ fp ∈ gs.flatten,
        (decode_frame fp.1).map (fun d => (d.1, d.2.2)) = some (false, fp.2) :=
      fun fp hfp => h fp (by rw [List.flatten_cons]; exact List.mem_append_right _ hfp)
    obtain ⟨F1, hF1, hrest⟩ := feed_frames_fragments g s hg
    have hF1rest : F1.buffer_ = [] ∧ F1.header_ready_ = false := by
      rcases hrest with h1 | ⟨_, h1⟩
      · exact h1
      · rw [h1]; exact ⟨hb, hr⟩
    obtain ⟨F, hFb, hFr, hF⟩ := ih
      { s with frame_ := F1, recv_buffer_vec_ := s.recv_buffer_vec_ ++ g.map Prod.snd }
      hF1rest.1 hF1rest.2 hgs
    refine ⟨F, hFb, hFr, ?_⟩
    rw [List.map_cons, List.foldl_cons,
      on_handle_frame_frames s _ hb hr (decode_isSome_of_map g false hg), hF1, hF]
    simp

/-- C13: the decoder is at rest and no chunk is accumulated.  The frames before the last
decode as complete frames without the fin flag; they arrive in chunks of whole frames,
`groups` in earlier chunks and `tail_group` in the chunk of the last frame, which has
the fin flag and opcode text, binary or continuation.  The earlier chunks invoke no
callback and accumulate one chunk per frame; handling the last chunk invokes `on_read`
once per frame, in arrival order, each with that frame's payload, and leaves the chunk
collection empty. -/
theorem fragments_then_final (s : Session) (groups : List (List (Bytes × Bytes)))
    (tail_group : List (Bytes × Bytes)) (last : Bytes) (op : Nat) (payload : Bytes)
    (hb : s.frame_.buffer_ = []) (hr : s.frame_.header_ready_ = false)
    (hvec : s.recv_buffer_vec_ = [])
    (hfrag : ∀ fp ∈ groups.flatten ++ tail_group,
      (decode_frame fp.1).map (fun d => (d.1, d.2.2)) = some (false, fp.2))
    (hlast : decode_frame last = some (true, op, payload))
    (hop : op = WS_OP_TEXT_TYPE ∨ op = WS_OP_BIN_TYPE ∨ op = WS_OP_CONTINUE_TYPE) :
    ((groups.map (fun g => (g.map Prod.fst).flatten)).foldl on_handle_frame s).trace = s.trace
    ∧ ((groups.map (fun g => (g.map Prod.fst).flatten)).foldl on_handle_frame s).recv_buffer_vec_
        = groups.flatten.map Prod.snd
    ∧ (on_handle_frame
          ((groups.map (fun g => (g.map Prod.fst).flatten)).foldl on_handle_frame s)
          ((tail_group.map Prod.fst).flatten ++ last)).trace
        = s.trace ++ (groups.flatten ++ tail_group).map (fun fp => Effect.on_read fp.2)
            ++ [Effect.on_read payload]
    ∧ (on_handle_frame
          ((groups.map (fun g => (g.map Prod.fst).flatten)).foldl on_handle_frame s)
          ((tail_group.map Prod.fst).flatten ++ last)).recv_buffer_vec_ = [] := by
  have hg : ∀ fp ∈ groups.flatten,
      (decode_frame fp.1).map (fun d => (d.1, d.2.2)) = some (false, fp.2) :=
    fun fp hfp => hfrag fp (List.mem_append_left _ hfp)
  have ht : ∀ fp ∈ tail_group,
      (decode_frame fp.1).map (fun d => (d.1, d.2.2)) = some (false, fp.2) :=
    fun fp hfp => hfrag fp (List.mem_append_right _ hfp)
  obtain ⟨F, hFb, hFr, hF⟩ := feed_groups groups s hb hr hg
  have hchunk : (tail_group.map Prod.fst).flatten ++ last
      = (tail_group.map Prod.fst ++ [last]).flatten := by simp
  have hdec : ∀ b ∈ tail_group.map Prod.fst ++ [last], (decode_frame b).isSome = true := by
    intro b hb'
    rcases List.mem_append.mp hb' with h1 | h1
    · exact decode_isSome_of_map tail_group false ht b h1
    · simp only [List.mem_singleton] at h1
      subst h1
      rw [hlast]; rfl
  rw [hF, hchunk, on_handle_frame_frames _ _ hFb hFr hdec,
    feed_frames_final tail_group last op payload hlast hop _ ht]
  simp [hvec]
  rfl

theorem send_ws_frame_header (s : Session) (data : Bytes) (op : Nat) :
    send_ws_frame s data op
      = { s with die_count_ := 0,
                 trace := s.trace ++ [Effect.async_write (ws_frame_header data.length op),
                                      Effect.async_write data] } := by
  unfold ws_frame_header
  rcases Nat.lt_or_ge data.length 126 with h | h
  · rw [send_ws_frame_small s data op h, if_pos h]
  · rcases Nat.lt_or_ge 65535 data.length with h2 | h2
    · rw [send_ws_frame_large s data op h2, if_neg (by omega), if_neg (by omega)]
    · rw [send_ws_frame_medium s data op h h2, if_neg (by omega), if_pos h2]

theorem ws_frame_header_head (len op : Nat) :
    (ws_frame_header len op).head? = some (128 + op % 16)
    ∧ ∀ b1, (ws_frame_header len op).get? 1 = some b1 → b1 < 128 := by
  unfold ws_frame_header
  split_ifs with h1 h2
  · refine ⟨rfl, ?_⟩
    intro b1 hb
    simp at hb
    omega
  · refine ⟨rfl, ?_⟩
    intro b1 hb
    simp at hb
    omega
  · refine ⟨rfl, ?_⟩
    intro b1 hb
    simp at hb
    omega

theorem parse_ok (x : Bytes) (h2 : ¬ x.length < 2)
    (hrsv : ¬ x.getD 0 0 / 16 % 8 ≠ 0)
    (hop : ¬ ¬ (x.getD 0 0 % 16 = 0x0 ∨ x.getD 0 0 % 16 = 0x1 ∨ x.getD 0 0 % 16 = 0x2
      ∨ x.getD 0 0 % 16 = 0x8 ∨ x.getD 0 0 % 16 = 0x9 ∨ x.getD 0 0 % 16 = 0xA))
    (ext : Nat)
    (hext : (if x.getD 1 0 % 128 = 126 then 2
      else if x.getD 1 0 % 128 = 127 then 8 else 0) = ext)
    (hs : ¬ x.length < 2 + ext + (if x.getD 1 0 / 128 % 2 = 1 then 4 else 0)) :
    (rested_frame false 0 []).parse x
      = ({ buffer_ := x, header_ready_ := true,
           fin_ := decide (x.getD 0 0 / 128 % 2 = 1),
           opcode_ := x.getD 0 0 % 16,
           mask_enable_ := decide (x.getD 1 0 / 128 % 2 = 1),
           masking_key_ := if x.getD 1 0 / 128 % 2 = 1 then (x.drop (2 + ext)).take 4 else [],
           payload_len_ := if ext = 0 then x.getD 1 0 % 128
                           else be_value ((x.drop 2).take ext),
           payload_start_ := 2 + ext + (if x.getD 1 0 / 128 % 2 = 1 then 4 else 0) }, 0) := by
  unfold websocket_frame.parse
  simp only [rested_frame, List.nil_append, Bool.false_eq_true, if_false]
  rw [if_neg h2, if_neg hrsv, if_neg hop]
  simp only [hext]
  rw [if_neg hs]

theorem decode_frame_of_parse (x : Bytes) (g : websocket_frame)
    (hparse : (rested_frame false 0 []).parse x = (g, 0))
    (hh : g.header_ready_ = true) (hbuf : g.buffer_ = x)
    (hlen : g.payload_start_ + g.payload_len_ = x.length) :
    decode_frame x = some (g.fin_, g.opcode_, g.get_payload_data) := by
  unfold decode_frame
  simp [hparse, websocket_frame.payload_is_ready, hh, hbuf, hlen,
    websocket_frame.get_payload_start, websocket_frame.get_payload_len,
    websocket_frame.get_fin, websocket_frame.get_oper_code]

theorem decode_ws_frame (data : Bytes) (op : Nat)
    (hop : op = 1 ∨ op = 2 ∨ op = 8 ∨ op = 9 ∨ op = 10) (hlen : data.length < 2 ^ 64) :
    decode_frame (ws_frame_header data.length op ++ data) = some (true, op, data) := by
  have hop16 : op % 16 = op := by rcases hop with h | h | h | h | h <;> subst h <;> rfl
  have hb0a : (128 + op) / 16 % 8 = 0 := by
    rcases hop with h | h | h | h | h <;> subst h <;> rfl
  have hb0b : (128 + op) % 16 = op := by
    rcases hop with h | h | h | h | h <;> subst h <;> rfl
  have hb0c : (128 + op) / 128 % 2 = 1 := by
    rcases hop with h | h | h | h | h <;> subst h <;> rfl
  have hknown : (op = 0x0 ∨ op = 0x1 ∨ op = 0x2 ∨ op = 0x8 ∨ op = 0x9 ∨ op = 0xA) := by
    rcases hop with h | h | h | h | h <;> subst h <;> simp
  unfold ws_frame_header
  rw [hop16]
  split_ifs with h1 h2
  · have hm : data.length % 128 = data.length := Nat.mod_eq_of_lt (by omega)
    have hd : data.length / 128 % 2 = 0 := by omega
    have hp := parse_ok ([128 + op, data.length] ++ data) (by simp)
      (by simp [hb0a]) (by simp [hb0b, hknown]) 0
      (by simp only [List.cons_append, List.nil_append, List.getD_cons_succ,
            List.getD_cons_zero, hm]
          rw [if_neg (by omega), if_neg (by omega)])
      (by simp [hd])
    rw [decode_frame_of_parse _ _ hp rfl rfl (by simp [hm, hd]; omega)]
    simp [websocket_frame.get_payload_data, hb0b, hb0c, hd, hm]
    omega
  · have hv : be_value [data.length / 256 % 256, data.length % 256] = data.length := by
      simp only [be_value, List.foldl_cons, List.foldl_nil]
      omega
    have hp := parse_ok ([128 + op, 126, data.length / 256 % 256, data.length % 256] ++ data)
      (by simp) (by simp [hb0a]) (by simp [hb0b, hknown]) 2 (by simp) (by simp)
    rw [decode_frame_of_parse _ _ hp rfl rfl (by simp [hv]; omega)]
    simp [websocket_frame.get_payload_data, hb0b, hb0c, hv]
    omega
  · have hv : be_value [data.length / 2 ^ 56 % 256, data.length / 2 ^ 48 % 256,
        data.length / 2 ^ 40 % 256, data.length / 2 ^ 32 % 256, data.length / 2 ^ 24 % 256,
        data.length / 2 ^ 16 % 256, data.length / 2 ^ 8 % 256, data.length % 256]
        = data.length := by
      simp only [be_value, List.foldl_cons, List.foldl_nil]
      norm_num at hlen ⊢
      omega
    have hv' := hv
    norm_num at hv'
    have hp := parse_ok ([128 + op, 127, data.length / 2 ^ 56 % 256, data.length / 2 ^ 48 % 256,
        data.length / 2 ^ 40 % 256, data.length / 2 ^ 32 % 256, data.length / 2 ^ 24 % 256,
        data.length / 2 ^ 16 % 256, data.length / 2 ^ 8 % 256, data.length % 256] ++ data)
      (by simp) (by simp [hb0a]) (by simp [hb0b, hknown]) 8 (by simp) (by simp)
    rw [decode_frame_of_parse _ _ hp rfl rfl (by simp [hv']; omega)]
    simp [websocket_frame.get_payload_data, hb0b, hb0c, hv']
    omega

theorem on_handle_frame_single (s : Session) (b : Bytes) (d : Bool × Nat × Bytes)
    (hb : s.frame_.buffer_ = []) (hr : s.frame_.header_ready_ = false)
    (hd : decode_frame b = some d) :
    on_handle_frame s b = frame_step s [] d := by
  have h := on_handle_frame_frames s [b] hb hr (by simp [hd])
  simp only [List.flatten_cons, List.flatten_nil, List.append_nil] at h
  rw [h]
  simp [feed_frames, hd]

theorem foldl_pong_trace (l : List Bytes) (s : Session) :
    (l.foldl (fun s item => send_ws_frame s item WS_OP_PONG_TYPE) s).trace
      = s.trace ++ (l.map (fun c =>
          [Effect.async_write (ws_frame_header c.length WS_OP_PONG_TYPE),
           Effect.async_write c])).flatten := by
  induction l generalizing s with
  | nil => simp
  | cons a as ih =>
    rw [List.foldl_cons, ih, send_ws_frame_header]
    simp

/-- C13 on three frames: a masked text fragment `He` in a chunk of its own, then one
chunk holding an unmasked continuation fragment `l` and the masked final continuation
frame `lo`: three `on_read` callbacks, one per frame, in order. -/
theorem fragments_then_final_witness :
    (on_handle_frame
        ((([[([0x01, 0x82, 0x37, 0xfa, 0x21, 0x3d, 0x7f, 0x9f], [0x48, 0x65])]] :
            List (List (Bytes × Bytes))).map
            (fun g => (g.map Prod.fst).flatten)).foldl on_handle_frame open_session)
        ((([([0x00, 0x01, 0x6c], [0x6c])] : List (Bytes × Bytes)).map Prod.fst).flatten
          ++ [0x80, 0x82, 0x37, 0xfa, 0x21, 0x3d, 0x5b, 0x95])).trace
      = open_session.trace
          ++ (([[([0x01, 0x82, 0x37, 0xfa, 0x21, 0x3d, 0x7f, 0x9f], [0x48, 0x65])]] :
                List (List (Bytes × Bytes))).flatten
              ++ [([0x00, 0x01, 0x6c], [0x6c])]).map (fun (fp : Bytes × Bytes) => Effect.on_read fp.2)
          ++ [Effect.on_read [0x6c, 0x6f]] :=
  (fragments_then_final open_session
    [[([0x01, 0x82, 0x37, 0xfa, 0x21, 0x3d, 0x7f, 0x9f], [0x48, 0x65])]]
    [([0x00, 0x01, 0x6c], [0x6c])] [0x80, 0x82, 0x37, 0xfa, 0x21, 0x3d, 0x5b, 0x95]
    WS_OP_CONTINUE_TYPE [0x6c, 0x6f] rfl rfl rfl (by decide) (by decide)
    (Or.inr (Or.inr rfl))).2.2.1

/-- C14: with the decoder at rest and no chunk accumulated, a chunk that is one complete
ping frame (fin set, opcode 9) with payload `p` makes `on_handle_frame` write exactly
the header of one pong frame (first byte `0x8A`, mask bit clear) and then `p`; no
callback is invoked and the chunk collection is empty afterwards.  In general
`handle_ws_ping` writes, for each accumulated chunk in order, a pong header and that
chunk. -/
theorem ping_pong (s : Session) (b p : Bytes)
    (hb : s.frame_.buffer_ = []) (hr : s.frame_.header_ready_ = false)
    (hvec : s.recv_buffer_vec_ = [])
    (hd : decode_frame b = some (true, WS_OP_PING_TYPE, p)) :
    (on_handle_frame s b).trace
      = s.trace ++ [Effect.async_write (ws_frame_header p.length WS_OP_PONG_TYPE),
                    Effect.async_write p]
    ∧ (ws_frame_header p.length WS_OP_PONG_TYPE).head? = some 0x8A
    ∧ (∀ b1, (ws_frame_header p.length WS_OP_PONG_TYPE).get? 1 = some b1 → b1 < 128)
    ∧ (on_handle_frame s b).recv_buffer_vec_ = []
    ∧ (∀ t : Session, (handle_ws_ping t).trace
        = t.trace ++ (t.recv_buffer_vec_.map (fun c =>
            [Effect.async_write (ws_frame_header c.length WS_OP_PONG_TYPE),
             Effect.async_write c])).flatten) := by
  have hh := ws_frame_header_head p.length WS_OP_PONG_TYPE
  refine ⟨?_, hh.1, hh.2, ?_, fun t => foldl_pong_trace _ t⟩
  · rw [on_handle_frame_single s b _ hb hr hd]
    simp [frame_step, on_handle_frame_dispatch, websocket_frame.get_oper_code, rested_frame,
      handle_ws_ping, send_ws_frame_header, hvec, WS_OP_PING_TYPE]
  · rw [on_handle_frame_single s b _ hb hr hd]
    simp [frame_step]

/-- C14 on a masked ping frame with payload `abc`: one pong frame with payload `abc`. -/
theorem ping_pong_witness :
    (on_handle_frame open_session [0x89, 0x83, 0x01, 0x02, 0x03, 0x04, 0x60, 0x60, 0x60]).trace
      = open_session.trace ++ [Effect.async_write [0x8A, 3], Effect.async_write [97, 98, 99]] :=
  (ping_pong open_session [0x89, 0x83, 0x01, 0x02, 0x03, 0x04, 0x60, 0x60, 0x60]
    [97, 98, 99] rfl rfl rfl (by decide)).1

/-- C15 as stated fails: after the text fragment `a` (fin clear) a message is in
progress; the text frame `b` with the fin flag that follows is not rejected, and both
payloads are delivered to `on_read`; the session is not closed. -/
theorem data_frame_in_progress_delivered :
    (on_handle_frame open_session [0x01, 0x01, 0x61]).recv_buffer_vec_ = [[0x61]]
    ∧ (on_handle_frame open_session [0x01, 0x01, 0x61]).trace = open_session.trace
    ∧ (on_handle_frame (on_handle_frame open_session [0x01, 0x01, 0x61])
        [0x81, 0x01, 0x62]).trace
      = open_session.trace ++ [Effect.on_read [0x61], Effect.on_read [0x62]]
    ∧ (on_handle_frame (on_handle_frame open_session [0x01, 0x01, 0x61])
        [0x81, 0x01, 0x62]).close_ = false := by
  refine ⟨by decide, by decide, by decide, by decide⟩

/-- C15, amended: with the decoder at rest, a complete frame with opcode text or binary
is handled as a continuation frame would be, whatever has been accumulated: without
the fin flag its payload joins the accumulated chunks and nothing else changes; with
the fin flag every accumulated chunk and then its payload are delivered to `on_read`,
in order, and the collection is emptied. -/
theorem data_frame_in_progress (s : Session) (b : Bytes) (op : Nat) (p : Bytes)
    (hb : s.frame_.buffer_ = []) (hr : s.frame_.header_ready_ = false)
    (hop : op = WS_OP_TEXT_TYPE ∨ op = WS_OP_BIN_TYPE) :
    (decode_frame b = some (false, op, p) →
      on_handle_frame s b
        = { s with frame_ := rested_frame false op [],
                   recv_buffer_vec_ := s.recv_buffer_vec_ ++ [p] })
    ∧ (decode_frame b = some (true, op, p) →
      on_handle_frame s b
        = { s with frame_ := rested_frame true op [],
                   recv_buffer_vec_ := [],
                   die_count_ := 0,
                   trace := s.trace ++ (s.recv_buffer_vec_ ++ [p]).map Effect.on_read }) := by
  constructor
  · intro hd
    rw [on_handle_frame_single s b _ hb hr hd, frame_step_fragment]
  · intro hd
    rw [on_handle_frame_single s b _ hb hr hd,
      frame_step_data s [] op p (by rcases hop with h | h <;> simp [h])]

/-- C15, amended, on a session that has accumulated the chunk `a` and receives the
binary frame `b` with the fin flag. -/
theorem data_frame_in_progress_witness :
    on_handle_frame { open_session with recv_buffer_vec_ := [[0x61]] } [0x82, 0x01, 0x62]
      = { ({ open_session with recv_buffer_vec_ := [[0x61]] } : Session) with
          frame_ := rested_frame true WS_OP_BIN_TYPE [],
          recv_buffer_vec_ := [],
          die_count_ := 0,
          trace := ({ open_session with recv_buffer_vec_ := [[0x61]] } : Session).trace
            ++ (({ open_session with recv_buffer_vec_ := [[0x61]] } : Session).recv_buffer_vec_
                ++ [[0x62]]).map Effect.on_read } :=
  (data_frame_in_progress { open_session with recv_buffer_vec_ := [[0x61]] }
    [0x82, 0x01, 0x62] WS_OP_BIN_TYPE [0x62] rfl rfl (Or.inr rfl)).2 (by decide)

/-- C16 as stated fails: on an open session the chunk `F1 00` (reserved bits set) makes
the parser fail, yet `on_read` arms a further read and the session is not closed; and
in the chunk `81 01 61 F1 00` the payload `a` of the frame before the bad one is
dispatched. -/
theorem parse_failure_keeps_reading :
    ((open_session.frame_.parse [0xF1, 0x00]).2 ≠ 0)
    ∧ (on_read open_session 0 [0xF1, 0x00]).trace = open_session.trace ++ [Effect.async_read]
    ∧ (on_read open_session 0 [0xF1, 0x00]).close_ = false
    ∧ (on_read open_session 0 [0x81, 0x01, 0x61, 0xF1, 0x00]).trace
      = open_session.trace ++ [Effect.on_read [0x61], Effect.async_read] := by
  refine ⟨by decide, by decide, by decide, by decide⟩

/-- C16, amended: on an open session, when the first parse call on a chunk fails,
`on_handle_frame` returns at once: nothing is dispatched or written and the chunk
collection is as before; the session is not marked closed, and `on_read` arms exactly
one further read. -/
theorem on_read_parse_failure (s : Session) (data : Bytes)
    (hready : s.http_request_ready_ = true) (hfail : (s.frame_.parse data).2 ≠ 0) :
    on_read s 0 data = async_read { s with frame_ := (s.frame_.parse data).1 }
    ∧ (on_read s 0 data).trace = s.trace ++ [Effect.async_read]
    ∧ (on_read s 0 data).close_ = s.close_
    ∧ (on_read s 0 data).recv_buffer_vec_ = s.recv_buffer_vec_ := by
  have h : on_read s 0 data = async_read { s with frame_ := (s.frame_.parse data).1 } := by
    rw [(on_read_frame_path s data hready).1]
    unfold on_handle_frame on_handle_frame_loop on_handle_frame_body
    simp [hfail]
  rw [h]
  exact ⟨rfl, rfl, rfl, rfl⟩

/-- C16, amended, on an open session and the chunk `83 00` (unknown opcode 3). -/
theorem on_read_parse_failure_witness :
    (on_read open_session 0 [0x83, 0x00]).trace = open_session.trace ++ [Effect.async_read] :=
  (on_read_parse_failure open_session [0x83, 0x00] rfl (by decide)).2.1

/-- C17: for an opcode among text, binary, close, ping, pong and a payload shorter than
2^64 bytes, the two writes of `send_ws_frame`, header then payload, decode (base header,
extended length when the length field is 126 or 127, no masking key, then the payload)
to the fin flag set, the same opcode and the same payload, of the same length, with no
byte left over. -/
theorem encode_decode (s : Session) (data : Bytes) (op : Nat)
    (hop : op = 0x1 ∨ op = 0x2 ∨ op = 0x8 ∨ op = 0x9 ∨ op = 0xA)
    (hlen : data.length < 2 ^ 64) :
    (send_ws_frame s data op).trace
      = s.trace ++ [Effect.async_write (ws_frame_header data.length op),
                    Effect.async_write data]
    ∧ decode_frame (ws_frame_header data.length op ++ data) = some (true, op, data)
    ∧ ((rested_frame false 0 []).parse
        (ws_frame_header data.length op ++ data)).1.get_payload_len = data.length := by
  have hd := decode_ws_frame data op hop hlen
  exact ⟨by rw [send_ws_frame_header], hd, decode_frame_payload_len _ _ hd⟩

/-- C17 at payload lengths 0, 125, 126, 65535 and 65536, one for each of the five
opcodes. -/
theorem encode_decode_witness :
    decode_frame (ws_frame_header (List.replicate 0 7).length 0x1 ++ List.replicate 0 7)
        = some (true, 0x1, List.replicate 0 7)
    ∧ decode_frame (ws_frame_header (List.replicate 125 7).length 0x2 ++ List.replicate 125 7)
        = some (true, 0x2, List.replicate 125 7)
    ∧ decode_frame (ws_frame_header (List.replicate 126 7).length 0x9 ++ List.replicate 126 7)
        = some (true, 0x9, List.replicate 126 7)
    ∧ decode_frame
        (ws_frame_header (List.replicate 65535 7).length 0xA ++ List.replicate 65535 7)
        = some (true, 0xA, List.replicate 65535 7)
    ∧ decode_frame
        (ws_frame_header (List.replicate 65536 7).length 0x8 ++ List.replicate 65536 7)
        = some (true, 0x8, List.replicate 65536 7) :=
  ⟨(encode_decode open_session (List.replicate 0 7) 0x1 (by decide)
      (by simp only [List.length_replicate]; decide)).2.1,
   (encode_decode open_session (List.replicate 125 7) 0x2 (by decide)
      (by simp only [List.length_replicate]; decide)).2.1,
   (encode_decode open_session (List.replicate 126 7) 0x9 (by decide)
      (by simp only [List.length_replicate]; decide)).2.1,
   (encode_decode open_session (List.replicate 65535 7) 0xA (by decide)
      (by simp only [List.length_replicate]; decide)).2.1,
   (encode_decode open_session (List.replicate 65536 7) 0x8 (by decide)
      (by simp only [List.length_replicate]; decide)).2.1⟩

end WsSession
